import Mathlib

/-
Verification development for the gold_trend_bot repository.

The Python source (src/gold_trend_bot.py) is shallowly embedded below.
Prices and the volatility estimate are modelled as rationals; Python float
formatting (format specs such as .2f) is modelled by fmtFixed, which rounds
half-to-even at the requested precision and renders the decimal expansion.
External effects are modelled as explicit inputs and result fields:
  - the FX_USDCNY environment variable is the envFx argument (none when the
    variable is unset, empty, unparsable or the parsed value is used as is);
  - the network part of options_lotto_check (yfinance option chain lookup)
    is the ext argument: none covers every early exit inside the try block
    that depends only on fetched data (no expiries, missing columns, empty
    frames, exceptions), some d carries the fetched numbers;
  - the Telegram delivery outcome is the deliverOk argument (the r.ok value
    of the HTTP response); the EvalResult records whether tg was invoked and
    with which outcome, and whether save_state was invoked;
  - load_state is a function of the abstract file system outcome.
-/

attribute [local semireducible] Rat.mul Rat.add Rat.sub Rat.inv

namespace GoldTrend

/-- Character of a string at a given index, as a list lookup. -/
def strAt (s : String) (n : Nat) : Option Char := s.data.get? n

/-- Left-pad a decimal string with zeros up to width w. -/
def padLeftZeros (w : Nat) (s : String) : String :=
  ⟨List.replicate (w - s.length) '0'⟩ ++ s

/-- Round a rational to the nearest integer, ties to even (Python round/format). -/
def roundHalfEven (x : ℚ) : ℤ :=
  let f := ⌊x⌋
  let r := x - (f : ℚ)
  if r < 1/2 then f
  else if (1 : ℚ)/2 < r then f + 1
  else if f % 2 = 0 then f else f + 1

/-- Model of the Python fixed-point format spec (for example .2f): round
half-to-even at the given precision and render with that many decimals
(no decimal point when the precision is 0). -/
def fmtFixed (prec : Nat) (q : ℚ) : String :=
  let n := roundHalfEven (q * ((10 : ℤ) ^ prec : ℤ))
  let sign := if q < 0 then "-" else ""
  let m := n.natAbs
  if prec = 0 then sign ++ toString m
  else sign ++ toString (m / 10 ^ prec) ++ "." ++ padLeftZeros prec (toString (m % 10 ^ prec))

/-- OZ_TO_GRAM = 31.1034768 -/
def OZ_TO_GRAM : ℚ := 311034768 / 10000000

/-- One entry of CFG["levels"]["buy_bands"]. -/
structure Band where
  name : String
  low : Int
  high : Int
  target_plan_pct : ℚ
deriving DecidableEq, Repr

/-- One entry of CFG["levels"]["stop_levels"]. -/
structure StopLevel where
  name : String
  price : Int
  action : String
deriving DecidableEq, Repr

/-- One entry of CFG["levels"]["take_profit"]. -/
structure TakeProfit where
  name : String
  price : Int
deriving DecidableEq, Repr

/-- CFG["levels"]. -/
structure Levels where
  buy_bands : List Band
  take_profit : List TakeProfit
  stop_levels : List StopLevel
deriving DecidableEq, Repr

/-- CFG["options_lotto"]. -/
structure LottoCfg where
  enabled : Bool
  underlying : String
  target_days : Int
  tenor_tolerance_days : Int
  otm_low : ℚ
  otm_high : ℚ
  iv_threshold : ℚ
  max_allocation_pct : ℚ
  notify_once : Bool
deriving DecidableEq, Repr

/-- The CFG dictionary.  confirm_zone is the "upper_confirm" pair when the
config holds a two-element list (the shape checks in the source), otherwise
none; fair_value_band likewise. -/
structure Config where
  notify_once_per_band : Bool
  plan_gold_max_pct : ℚ
  fair_value_band : Option (Int × Int)
  fx_usdcny_default : ℚ
  confirm_zone : Option (Int × Int)
  levels : Levels
  atr_lookback_days : Nat
  options_lotto : LottoCfg
deriving DecidableEq, Repr

/-- The persisted state dictionary: the "notified" sub-dictionary is the
lookup function st.get("notified", {}).get(key, False); the timestamps carry
the .get defaults 0. -/
structure AlertState where
  notified : String → Bool
  options_lotto_suggested : Bool
  last_summary_ts : Int
  last_status_ts : Int

/-- The state of a fresh run (missing or corrupt state file). -/
def emptyState : AlertState :=
  { notified := fun _ => false
    options_lotto_suggested := false
    last_summary_ts := 0
    last_status_ts := 0 }

/-- in_band(p, lo, hi) = lo <= p <= hi. -/
def in_band (p lo hi : ℚ) : Bool := decide (lo ≤ p) && decide (p ≤ hi)

/-- should_once(st, key) = not st.get("notified", {}).get(key, False). -/
def should_once (st : AlertState) (key : String) : Bool := !(st.notified key)

/-- mark_once(st, key): st.setdefault("notified", {})[key] = True. -/
def mark_once (st : AlertState) (key : String) : AlertState :=
  { st with notified := fun k => if k = key then true else st.notified k }

/-- Trigger condition of a buy band row: in_band(p, low, high). -/
def bandCond (p : ℚ) (b : Band) : Bool := in_band p (b.low : ℚ) (b.high : ℚ)

/-- Trigger condition of a stop level row: p <= price. -/
def stopCond (p : ℚ) (s : StopLevel) : Bool := decide (p ≤ (s.price : ℚ))

/-- _get_fx_rate: the environment value FX_USDCNY (already parsed; none when
unset, empty or unparsable) wins when positive, otherwise the config default
wins when positive, otherwise None. -/
def _get_fx_rate (envFx : Option ℚ) (cfg : Config) : Option ℚ :=
  match envFx with
  | some v =>
      if 0 < v then some v
      else if 0 < cfg.fx_usdcny_default then some cfg.fx_usdcny_default else none
  | none =>
      if 0 < cfg.fx_usdcny_default then some cfg.fx_usdcny_default else none

/-- The ", ~{lo:.0f}-{hi:.0f} RMB/g" fragment (empty when no FX rate),
identical in fmt_status and in the buy-band alert. -/
def rmbPart (fx : Option ℚ) (b : Band) : String :=
  match fx with
  | some v =>
      ", ~" ++ fmtFixed 0 ((b.low : ℚ) * v / OZ_TO_GRAM) ++ "-"
        ++ fmtFixed 0 ((b.high : ℚ) * v / OZ_TO_GRAM) ++ " RMB/g"
  | none => ""

/-- Alert key of a buy band. -/
def bandKey (b : Band) : String := "buy_" ++ b.name

/-- The "Enter buy band ..." alert text. -/
def bandMsg (fx : Option ℚ) (plan_max p : ℚ) (b : Band) : String :=
  "Enter buy band *" ++ b.name ++ "* " ++ toString b.low ++ "-" ++ toString b.high
    ++ " | price *" ++ fmtFixed 2 p ++ "* -> target *" ++ fmtFixed 0 (b.target_plan_pct * 100)
    ++ "% plan* (~*" ++ fmtFixed 1 (plan_max * b.target_plan_pct * 100)
    ++ "%* of portfolio" ++ rmbPart fx b ++ ", scale in)"

/-- The "In upper confirm ..." alert text. -/
def confirmMsg (plan_max p : ℚ) (lo hi : Int) : String :=
  "In upper confirm " ++ toString lo ++ "-" ++ toString hi ++ " | price *" ++ fmtFixed 2 p
    ++ "* -> if holds, consider build to *30% plan* (~*"
    ++ fmtFixed 1 (plan_max * (3/10) * 100) ++ "%* of portfolio)"

/-- Alert key of a stop level. -/
def stopKey (s : StopLevel) : String := "stop_" ++ s.name

/-- The action tag lookup table with its fallback. -/
def action_map (tag : String) : String :=
  if tag = "trim_to_50" then "Trim total position to 50% and wait"
  else if tag = "cut_to_0_30" then "Cut position to 0-30%, re-evaluate"
  else "Risk action"

/-- The "Risk level ..." alert text. -/
def riskMsg (p : ℚ) (s : StopLevel) : String :=
  "Risk level *" ++ s.name ++ "* @ " ++ toString s.price ++ " | price *"
    ++ fmtFixed 2 p ++ "* -> " ++ action_map s.action

/-- The volatility based stop suggestion text (three ATR multiples). -/
def stopsMsg (p v : ℚ) : String :=
  "Stops (pick one):\n- Conservative 1.0x: ~*" ++ fmtFixed 0 (p - 1 * v)
    ++ "*\n- Standard    1.5x: ~*" ++ fmtFixed 0 (p - 3/2 * v)
    ++ "*\n- Loose       2.0x: ~*" ++ fmtFixed 0 (p - 2 * v) ++ "*"

/-- The fixed rule line emitted together with stopsMsg. -/
def ruleMsg : String := "Rule: if close < your stop -> cut 50–100% per plan."

/-- External data reaching the message construction step of
options_lotto_check: GLD spot, chosen expiry and its distance from the
one-year target, and the mean implied volatility of the OTM calls. -/
structure LottoData where
  gld_price : ℚ
  best_exp : String
  best_diff : Int
  iv_mean : ℚ
deriving DecidableEq, Repr

/-- The "Options lotto idea ..." advisory text. -/
def lottoMsg (oc : LottoCfg) (d : LottoData) : String :=
  "Options lotto idea (tail hedge):\n- Underlying: " ++ oc.underlying ++ ", spot ~"
    ++ fmtFixed 2 d.gld_price ++ " USD\n- Use ~1Y deep OTM calls (expiry " ++ d.best_exp
    ++ ", strikes ≈ " ++ fmtFixed 0 (d.gld_price * (1 + oc.otm_low)) ++ "–"
    ++ fmtFixed 0 (d.gld_price * (1 + oc.otm_high)) ++ ")\n- Avg implied vol: ~"
    ++ fmtFixed 1 (d.iv_mean * 100) ++ "% (below threshold "
    ++ fmtFixed 1 (oc.iv_threshold * 100) ++ "%)\n- Suggested max allocation: ~"
    ++ fmtFixed 2 (oc.max_allocation_pct * 100)
    ++ "% of total portfolio per year\nIdea: reserve this as a black-swan hedge, not a main P&L driver."

/-- options_lotto_check: the pure gates of the source (enabled, cheap zone,
notify once) followed by the data dependent exits of the try block; on
success it sets options_lotto_suggested and returns the advisory text. -/
def options_lotto_check (cfg : Config) (st : AlertState) (p : ℚ) (ext : Option LottoData) :
    Option String × AlertState :=
  let oc := cfg.options_lotto
  if !oc.enabled then (none, st)
  else if !(cfg.levels.buy_bands.any fun b =>
      (decide (b.name = "Band B") || decide (b.name = "Band C"))
        && in_band p (b.low : ℚ) (b.high : ℚ)) then (none, st)
  else if oc.notify_once && st.options_lotto_suggested then (none, st)
  else
    match ext with
    | none => (none, st)
    | some d =>
        if decide (oc.tenor_tolerance_days < d.best_diff) then (none, st)
        else if decide (oc.iv_threshold < d.iv_mean) then (none, st)
        else (some (lottoMsg oc d), { st with options_lotto_suggested := true })

/-- The body of one iteration of the buy-band and stop-level loops of
check_and_alert: when the trigger condition holds and the once guard allows
it, append the alert text and mark the key notified. -/
def alertStep {α : Type} (once : Bool) (cond : α → Bool) (key : α → String)
    (msg : α → String) (acc : List String × AlertState) (x : α) :
    List String × AlertState :=
  if cond x then
    if !once || should_once acc.2 (key x) then
      (acc.1 ++ [msg x], mark_once acc.2 (key x))
    else acc
  else acc

/-- The upper confirm zone block of check_and_alert. -/
def confirmApply (once : Bool) (plan_max : ℚ) (cz : Option (Int × Int)) (p : ℚ)
    (acc : List String × AlertState) : List String × AlertState :=
  match cz with
  | some (lo, hi) =>
      if decide ((lo : ℚ) ≤ p) && decide (p ≤ (hi : ℚ)) then
        if !once || should_once acc.2 "upper_confirm" then
          (acc.1 ++ [confirmMsg plan_max p lo hi], mark_once acc.2 "upper_confirm")
        else acc
      else acc
  | none => acc

/-- The dynamic stops block of check_and_alert: appended whenever the
volatility estimate is present and positive. -/
def dynStops (p : ℚ) (a : Option ℚ) (acc : List String × AlertState) :
    List String × AlertState :=
  match a with
  | some v => if decide (0 < v) then (acc.1 ++ [stopsMsg p v, ruleMsg], acc.2) else acc
  | none => acc

/-- The options lotto block of check_and_alert: append the advisory when it
is returned and nonempty (Python truthiness of the string). -/
def lottoApply (cfg : Config) (p : ℚ) (ext : Option LottoData)
    (acc : List String × AlertState) : List String × AlertState :=
  match options_lotto_check cfg acc.2 p ext with
  | (some m, st) => if m.isEmpty then (acc.1, st) else (acc.1 ++ [m], st)
  | (none, st) => (acc.1, st)

/-- The message accumulation of check_and_alert: buy bands in declared
order, then the upper confirm zone, then the stop levels in declared order,
then the dynamic stops note, then the options lotto advisory.  Returns the
collected messages and the resulting state. -/
def evalSignals (envFx : Option ℚ) (cfg : Config) (p : ℚ) (a : Option ℚ)
    (ext : Option LottoData) (st : AlertState) : List String × AlertState :=
  let once := cfg.notify_once_per_band
  let plan_max := cfg.plan_gold_max_pct
  let fx_rate := _get_fx_rate envFx cfg
  let acc1 := cfg.levels.buy_bands.foldl
    (alertStep once (bandCond p) bandKey (bandMsg fx_rate plan_max p)) ([], st)
  let acc2 := confirmApply once plan_max cfg.confirm_zone p acc1
  let acc3 := cfg.levels.stop_levels.foldl
    (alertStep once (stopCond p) stopKey (riskMsg p)) acc2
  let acc4 := dynStops p a acc3
  lottoApply cfg p ext acc4

/-- The ATR block of fmt_status (entered when the volatility value is truthy,
that is present and nonzero). -/
def atrBlock (lookback : Nat) (p v : ℚ) : List String :=
  let ap := if 0 < p then v / p * 100 else 0
  let m1 := p - 1 * v
  let m15 := p - 3/2 * v
  let m2 := p - 2 * v
  [ "ATR(" ++ toString lookback ++ "): ~*" ++ fmtFixed 1 v ++ "* (*" ++ fmtFixed 2 ap ++ "%*)"
  , "Dynamic refs (ATR): 1.0x~*" ++ fmtFixed 0 m1 ++ "*, 1.5x~*" ++ fmtFixed 0 m15
      ++ "*, 2.0x~*" ++ fmtFixed 0 m2 ++ "*"
  , "Stops (pick one):\n- Conservative 1.0x: ~*" ++ fmtFixed 0 m1
      ++ "* — tight risk / short-term\n- Standard    1.5x: ~*" ++ fmtFixed 0 m15
      ++ "* — default choice\n- Loose       2.0x: ~*" ++ fmtFixed 0 m2
      ++ "* — more room / smaller size"
  , "How to use: if close < your stop -> cut 50–100% per plan." ]

/-- One buy band row of the fmt_status rules section. -/
def statusBandLine (fx : Option ℚ) (plan_max : ℚ) (b : Band) : String :=
  "- " ++ b.name ++ ": " ++ fmtFixed 0 (b.low : ℚ) ++ "-" ++ fmtFixed 0 (b.high : ℚ)
    ++ " -> target *" ++ fmtFixed 0 (b.target_plan_pct * 100) ++ "% plan* (~*"
    ++ fmtFixed 1 (plan_max * b.target_plan_pct * 100) ++ "%* of portfolio"
    ++ rmbPart fx b ++ ")"

/-- fmt_status: the status / heartbeat / signals header. -/
def fmt_status (envFx : Option ℚ) (cfg : Config) (p : ℚ) (a : Option ℚ)
    (title : String) : String :=
  let plan_max := cfg.plan_gold_max_pct
  let fx_rate := _get_fx_rate envFx cfg
  let out1 : List String := ["*" ++ title ++ "*  ", "Price: *" ++ fmtFixed 2 p ++ "* USD/oz"]
  let out2 := out1 ++ (match a with
    | some v => if v ≠ 0 then atrBlock cfg.atr_lookback_days p v else []
    | none => [])
  let out3 := out2 ++ ["--- Plan ---",
    "- Plan max gold weight: *" ++ fmtFixed 1 (plan_max * 100) ++ "%* of total portfolio"]
  let out4 := out3 ++ (match cfg.fair_value_band with
    | some (lo, hi) =>
        if lo ≠ 0 ∧ hi ≠ 0 then
          ["- Fair-value band (3–5y view): *" ++ fmtFixed 0 (lo : ℚ) ++ "–"
            ++ fmtFixed 0 (hi : ℚ) ++ "* USD/oz"]
        else []
    | none => [])
  let out5 := out4 ++ ["--- Rules ---", "*Buy bands*:"]
  let out6 := out5 ++ (match cfg.confirm_zone with
    | some (lo, hi) =>
        ["- Upper confirm: " ++ fmtFixed 0 (lo : ℚ) ++ "-" ++ fmtFixed 0 (hi : ℚ)
          ++ " -> build to *30% plan* (~*" ++ fmtFixed 1 (plan_max * (3/10) * 100)
          ++ "%* of portfolio, if holds)"]
    | none => [])
  let out7 := out6 ++ cfg.levels.buy_bands.map (statusBandLine fx_rate plan_max)
  let out8 := out7 ++
    [ "*Take profit*: " ++ String.intercalate ", " (cfg.levels.take_profit.map fun t => toString t.price)
    , "*Risk*: " ++ String.intercalate "; " (cfg.levels.stop_levels.map fun s => s.name ++ "@" ++ toString s.price) ]
  let out9 := out8 ++ (match cfg.confirm_zone with
    | some (lo, hi) =>
        ["*Upper confirm*: " ++ toString lo ++ "-" ++ toString hi
          ++ " (if holds, consider add to 70-80%)"]
    | none => [])
  String.intercalate "\n" out9

/-- Result of one check_and_alert call: the collected messages, the state
after the call, the composed Telegram body (when sent), the delivery outcome
(some deliverOk when tg was invoked), whether save_state was invoked, and
the boolean return value. -/
structure EvalResult where
  msgs : List String
  st : AlertState
  body : Option String
  tgResult : Option Bool
  saved : Bool
  ret : Bool

/-- check_and_alert: collect the signal messages; when any exist, format the
header, deliver, persist the state and return True, otherwise return False
without delivering or persisting. -/
def check_and_alert (envFx : Option ℚ) (cfg : Config) (p : ℚ) (a : Option ℚ)
    (ext : Option LottoData) (deliverOk : Bool) (st : AlertState) : EvalResult :=
  let r := evalSignals envFx cfg p a ext st
  if r.1.isEmpty then
    { msgs := r.1, st := r.2, body := none, tgResult := none, saved := false, ret := false }
  else
    { msgs := r.1
      st := r.2
      body := some (fmt_status envFx cfg p a "Gold Trend | Signals"
        ++ "\n\n--- Realtime signals ---\n" ++ String.intercalate "\n\n" r.1)
      tgResult := some deliverOk
      saved := true
      ret := true }

/-- Result of one run-mode cycle of main. -/
structure RunResult where
  evalRes : EvalResult
  heartbeat : Bool
  st : AlertState
  saved : Bool

/-- The run branch of main: evaluate; when nothing was pushed, send the
heartbeat only when more than 6 hours have passed since last_summary_ts,
updating and persisting the timestamp. -/
def run_cycle (envFx : Option ℚ) (cfg : Config) (p : ℚ) (a : Option ℚ)
    (ext : Option LottoData) (deliverOk : Bool) (st : AlertState) (now : Int) : RunResult :=
  let r := check_and_alert envFx cfg p a ext deliverOk st
  if r.ret then { evalRes := r, heartbeat := false, st := r.st, saved := r.saved }
  else if decide (6 * 3600 < now - r.st.last_summary_ts) then
    { evalRes := r, heartbeat := true, st := { r.st with last_summary_ts := now }, saved := true }
  else { evalRes := r, heartbeat := false, st := r.st, saved := r.saved }

/-- Outcome of reading the state file: missing, raising on open or parse, or
successfully parsed content. -/
inductive ReadOutcome where
  | missing : ReadOutcome
  | failure : ReadOutcome
  | ok : AlertState → ReadOutcome

/-- load_state: missing file gives the empty state; any exception while
opening or parsing gives the empty state; otherwise the parsed content. -/
def load_state : ReadOutcome → AlertState
  | ReadOutcome.missing => emptyState
  | ReadOutcome.failure => emptyState
  | ReadOutcome.ok st => st

/-- The concrete CFG dictionary of the source. -/
def gtCFG : Config :=
  { notify_once_per_band := true
    plan_gold_max_pct := 18/100
    fair_value_band := some (3600, 4200)
    fx_usdcny_default := 72/10
    confirm_zone := some (4080, 4100)
    levels :=
      { buy_bands :=
          [ { name := "Band A", low := 3920, high := 3960, target_plan_pct := 3/10 }
          , { name := "Band B", low := 3850, high := 3920, target_plan_pct := 7/10 }
          , { name := "Band C", low := 3780, high := 3850, target_plan_pct := 1 } ]
        take_profit :=
          [ { name := "TP1", price := 4600 }
          , { name := "TP2", price := 4850 }
          , { name := "TP3", price := 5050 } ]
        stop_levels :=
          [ { name := "Risk-1 trim to 50%", price := 3650, action := "trim_to_50" }
          , { name := "Risk-2 cut to 0-30%", price := 3520, action := "cut_to_0_30" } ] }
    atr_lookback_days := 14
    options_lotto :=
      { enabled := true
        underlying := "GLD"
        target_days := 365
        tenor_tolerance_days := 90
        otm_low := 35/100
        otm_high := 60/100
        iv_threshold := 25/100
        max_allocation_pct := 5/1000
        notify_once := true } }

/-- The concrete CFG with the once guard disabled (notify_once_per_band
patched to False), used to state the behaviour with the guard off. -/
def gtCFGoff : Config := { gtCFG with notify_once_per_band := false }

end GoldTrend

namespace GoldTrend

/- ===== String discrimination machinery ===== -/

theorem strAt_append_eq_some (s t : String) (n : Nat) (c : Char)
    (h : strAt s n = some c) : strAt (s ++ t) n = some c := by
  have hlen : n < s.data.length := by
    by_contra hn
    rw [strAt, List.get?_eq_none.mpr (Nat.le_of_not_lt hn)] at h
    exact Option.noConfusion h
  rw [strAt, String.data_append, List.get?_append hlen]
  exact h

theorem ne_of_strAt {s t : String} {n : Nat} {c d : Char}
    (hs : strAt s n = some c) (ht : strAt t n = some d) (hcd : c ≠ d) : s ≠ t := by
  intro he
  rw [he, ht] at hs
  exact hcd (Option.some.inj hs).symm

theorem bandMsg_strAt0 (fx : Option ℚ) (pm p : ℚ) (b : Band) :
    strAt (bandMsg fx pm p b) 0 = some 'E' := by
  unfold bandMsg
  repeat (first | decide | apply strAt_append_eq_some)

theorem confirmMsg_strAt0 (pm p : ℚ) (lo hi : Int) :
    strAt (confirmMsg pm p lo hi) 0 = some 'I' := by
  unfold confirmMsg
  repeat (first | decide | apply strAt_append_eq_some)

theorem riskMsg_strAt0 (p : ℚ) (s : StopLevel) :
    strAt (riskMsg p s) 0 = some 'R' := by
  unfold riskMsg
  repeat (first | decide | apply strAt_append_eq_some)

theorem riskMsg_strAt1 (p : ℚ) (s : StopLevel) :
    strAt (riskMsg p s) 1 = some 'i' := by
  unfold riskMsg
  repeat (first | decide | apply strAt_append_eq_some)

theorem stopsMsg_strAt0 (p v : ℚ) : strAt (stopsMsg p v) 0 = some 'S' := by
  unfold stopsMsg
  repeat (first | decide | apply strAt_append_eq_some)

theorem ruleMsg_strAt0 : strAt ruleMsg 0 = some 'R' := by decide

theorem ruleMsg_strAt1 : strAt ruleMsg 1 = some 'u' := by decide

theorem lottoMsg_strAt0 (oc : LottoCfg) (d : LottoData) :
    strAt (lottoMsg oc d) 0 = some 'O' := by
  unfold lottoMsg
  repeat (first | decide | apply strAt_append_eq_some)

theorem lottoMsg_isEmpty_false (oc : LottoCfg) (d : LottoData) :
    (lottoMsg oc d).isEmpty = false := by
  rw [Bool.eq_false_iff]
  intro h
  have he : lottoMsg oc d = "" := (String.isEmpty_iff _).mp h
  have h0 := lottoMsg_strAt0 oc d
  rw [he] at h0
  exact Option.noConfusion h0

end GoldTrend

namespace GoldTrend

/- ===== mark_once and should_once basics ===== -/

theorem mark_once_notified_self (st : AlertState) (k : String) :
    (mark_once st k).notified k = true := by
  simp [mark_once]

theorem mark_once_notified_other (st : AlertState) (k k' : String) (h : k' ≠ k) :
    (mark_once st k).notified k' = st.notified k' := by
  simp [mark_once, h]

theorem mark_once_notified_mono (st : AlertState) (k k' : String)
    (h : st.notified k' = true) : (mark_once st k).notified k' = true := by
  by_cases hk : k' = k
  · subst hk; exact mark_once_notified_self st k'
  · rw [mark_once_notified_other st k k' hk]; exact h

theorem mark_once_lotto (st : AlertState) (k : String) :
    (mark_once st k).options_lotto_suggested = st.options_lotto_suggested := rfl

theorem mark_once_summary_ts (st : AlertState) (k : String) :
    (mark_once st k).last_summary_ts = st.last_summary_ts := rfl

/- ===== Generic lemmas about the alert loops ===== -/

theorem alertStep_msgs {α : Type} (once : Bool) (cond : α → Bool) (key : α → String)
    (msg : α → String) (acc : List String × AlertState) (x : α) :
    ∃ ex, (alertStep once cond key msg acc x).1 = acc.1 ++ ex ∧
      (ex = [] → alertStep once cond key msg acc x = acc) := by
  unfold alertStep
  by_cases hc : cond x
  · simp only [hc, if_true]
    by_cases hg : (!once || should_once acc.2 (key x)) = true
    · exact ⟨[msg x], by simp [hg]⟩
    · exact ⟨[], by simp [hg]⟩
  · exact ⟨[], by simp [hc]⟩

theorem foldl_step_msgs {α : Type} (once : Bool) (cond : α → Bool) (key : α → String)
    (msg : α → String) (l : List α) (acc : List String × AlertState) :
    ∃ ex, (l.foldl (alertStep once cond key msg) acc).1 = acc.1 ++ ex ∧
      (ex = [] → l.foldl (alertStep once cond key msg) acc = acc) := by
  induction l generalizing acc with
  | nil => exact ⟨[], by simp⟩
  | cons y t ih =>
      obtain ⟨ex1, he1, hz1⟩ := alertStep_msgs once cond key msg acc y
      obtain ⟨ex2, he2, hz2⟩ := ih (alertStep once cond key msg acc y)
      refine ⟨ex1 ++ ex2, ?_, ?_⟩
      · simp only [List.foldl_cons, he2, he1, List.append_assoc]
      · intro hz
        obtain ⟨h1, h2⟩ := List.append_eq_nil.mp hz
        have hstep := hz1 h1
        have h3 := hz2 h2
        rw [hstep] at h3
        rw [List.foldl_cons, hstep]
        exact h3

theorem mem_foldl_step {α : Type} (once : Bool) (cond : α → Bool) (key : α → String)
    (msg : α → String) (l : List α) (acc : List String × AlertState) (m : String)
    (hm : m ∈ acc.1) : m ∈ (l.foldl (alertStep once cond key msg) acc).1 := by
  obtain ⟨ex, he, _⟩ := foldl_step_msgs once cond key msg l acc
  rw [he]
  exact List.mem_append_left ex hm

theorem alertStep_notified_mono {α : Type} (once : Bool) (cond : α → Bool)
    (key : α → String) (msg : α → String) (acc : List String × AlertState) (x : α)
    (k : String) (h : acc.2.notified k = true) :
    (alertStep once cond key msg acc x).2.notified k = true := by
  unfold alertStep
  by_cases hc : cond x
  · by_cases hg : (!once || should_once acc.2 (key x)) = true
    · simp only [hc, hg, if_true]
      exact mark_once_notified_mono acc.2 (key x) k h
    · simp only [hc, if_true, hg, if_false]
      exact h
  · simp only [hc, if_false]
    exact h

theorem foldl_step_notified_mono {α : Type} (once : Bool) (cond : α → Bool)
    (key : α → String) (msg : α → String) (l : List α) (acc : List String × AlertState)
    (k : String) (h : acc.2.notified k = true) :
    (l.foldl (alertStep once cond key msg) acc).2.notified k = true := by
  induction l generalizing acc with
  | nil => exact h
  | cons y t ih =>
      rw [List.foldl_cons]
      exact ih _ (alertStep_notified_mono once cond key msg acc y k h)

theorem alertStep_notified_other {α : Type} (once : Bool) (cond : α → Bool)
    (key : α → String) (msg : α → String) (acc : List String × AlertState) (x : α)
    (k : String) (h : key x ≠ k) :
    (alertStep once cond key msg acc x).2.notified k = acc.2.notified k := by
  unfold alertStep
  by_cases hc : cond x = true
  · rw [if_pos hc]
    by_cases hg : (!once || should_once acc.2 (key x)) = true
    · rw [if_pos hg]
      exact mark_once_notified_other acc.2 (key x) k (fun he => h he.symm)
    · rw [if_neg hg]
  · rw [if_neg hc]

theorem foldl_step_notified_other {α : Type} (once : Bool) (cond : α → Bool)
    (key : α → String) (msg : α → String) (l : List α) (acc : List String × AlertState)
    (k : String) (h : ∀ y ∈ l, key y ≠ k) :
    (l.foldl (alertStep once cond key msg) acc).2.notified k = acc.2.notified k := by
  induction l generalizing acc with
  | nil => rfl
  | cons y t ih =>
      rw [List.foldl_cons, ih _ (fun z hz => h z (List.mem_cons_of_mem y hz)),
        alertStep_notified_other once cond key msg acc y k (h y (List.mem_cons_self y t))]

theorem alertStep_lotto {α : Type} (once : Bool) (cond : α → Bool) (key : α → String)
    (msg : α → String) (acc : List String × AlertState) (x : α) :
    (alertStep once cond key msg acc x).2.options_lotto_suggested =
      acc.2.options_lotto_suggested := by
  unfold alertStep
  by_cases hc : cond x
  · by_cases hg : (!once || should_once acc.2 (key x)) = true
    · simp [hc, hg, mark_once_lotto]
    · simp [hc, hg]
  · simp [hc]

theorem foldl_step_lotto {α : Type} (once : Bool) (cond : α → Bool) (key : α → String)
    (msg : α → String) (l : List α) (acc : List String × AlertState) :
    (l.foldl (alertStep once cond key msg) acc).2.options_lotto_suggested =
      acc.2.options_lotto_suggested := by
  induction l generalizing acc with
  | nil => rfl
  | cons y t ih => rw [List.foldl_cons, ih, alertStep_lotto]

theorem alertStep_summary_ts {α : Type} (once : Bool) (cond : α → Bool) (key : α → String)
    (msg : α → String) (acc : List String × AlertState) (x : α) :
    (alertStep once cond key msg acc x).2.last_summary_ts = acc.2.last_summary_ts := by
  unfold alertStep
  by_cases hc : cond x
  · by_cases hg : (!once || should_once acc.2 (key x)) = true
    · simp [hc, hg, mark_once_summary_ts]
    · simp [hc, hg]
  · simp [hc]

theorem foldl_step_summary_ts {α : Type} (once : Bool) (cond : α → Bool) (key : α → String)
    (msg : α → String) (l : List α) (acc : List String × AlertState) :
    (l.foldl (alertStep once cond key msg) acc).2.last_summary_ts =
      acc.2.last_summary_ts := by
  induction l generalizing acc with
  | nil => rfl
  | cons y t ih => rw [List.foldl_cons, ih, alertStep_summary_ts]

end GoldTrend

namespace GoldTrend

theorem foldl_step_marks {α : Type} (once : Bool) (cond : α → Bool) (key : α → String)
    (msg : α → String) (l : List α) (acc : List String × AlertState) (x : α)
    (hx : x ∈ l) (hc : cond x = true) :
    (l.foldl (alertStep once cond key msg) acc).2.notified (key x) = true := by
  induction l generalizing acc with
  | nil => cases hx
  | cons y t ih =>
      rw [List.foldl_cons]
      rcases List.mem_cons.mp hx with hyx | hxt
      · subst hyx
        apply foldl_step_notified_mono
        unfold alertStep
        rw [if_pos hc]
        by_cases hg : (!once || should_once acc.2 (key x)) = true
        · rw [if_pos hg]
          exact mark_once_notified_self acc.2 (key x)
        · rw [if_neg hg]
          simp only [Bool.or_eq_true, not_or, Bool.not_eq_true] at hg
          obtain ⟨-, hg2⟩ := hg
          simpa [should_once] using hg2
      · exact ih _ hxt

end GoldTrend

namespace GoldTrend

theorem foldl_step_fires_mem {α : Type} (once : Bool) (cond : α → Bool) (key : α → String)
    (msg : α → String) (l : List α) (acc : List String × AlertState) (x : α)
    (hc : cond x = true) (hx : x ∈ l)
    (hg : once = true → acc.2.notified (key x) = false)
    (hk : ∀ y ∈ l, key y = key x → y = x) :
    msg x ∈ (l.foldl (alertStep once cond key msg) acc).1 := by
  induction l generalizing acc with
  | nil => cases hx
  | cons y t ih =>
      rw [List.foldl_cons]
      by_cases hyx : y = x
      · subst hyx
        have hgb : (!once || should_once acc.2 (key y)) = true := by
          cases ho : once with
          | false => simp
          | true => simp [should_once, hg ho]
        have hstep : alertStep once cond key msg acc y = (acc.1 ++ [msg y], mark_once acc.2 (key y)) := by
          unfold alertStep
          rw [if_pos hc, if_pos hgb]
        apply mem_foldl_step
        rw [hstep]
        exact List.mem_append_right _ (List.mem_singleton_self _)
      · have hxt : x ∈ t := by
          rcases List.mem_cons.mp hx with h | h
          · exact absurd h.symm hyx
          · exact h
        have hky : key y ≠ key x := fun he => hyx (hk y (List.mem_cons_self y t) he)
        refine ih _ hxt (fun ho => ?_) (fun z hz he => hk z (List.mem_cons_of_mem y hz) he)
        rw [alertStep_notified_other once cond key msg acc y (key x) hky]
        exact hg ho

theorem foldl_step_mem_elim {α : Type} (once : Bool) (cond : α → Bool) (key : α → String)
    (msg : α → String) (l : List α) (acc : List String × AlertState) (m : String)
    (hm : m ∈ (l.foldl (alertStep once cond key msg) acc).1) :
    m ∈ acc.1 ∨ ∃ x, x ∈ l ∧ cond x = true ∧ msg x = m := by
  induction l generalizing acc with
  | nil => exact Or.inl hm
  | cons y t ih =>
      rw [List.foldl_cons] at hm
      rcases ih _ hm with hstep | hex
      · unfold alertStep at hstep
        by_cases hc : cond y = true
        · rw [if_pos hc] at hstep
          by_cases hg : (!once || should_once acc.2 (key y)) = true
          · rw [if_pos hg] at hstep
            rcases List.mem_append.mp hstep with h | h
            · exact Or.inl h
            · exact Or.inr ⟨y, List.mem_cons_self y t, hc, (List.mem_singleton.mp h).symm⟩
          · rw [if_neg hg] at hstep
            exact Or.inl hstep
        · rw [if_neg hc] at hstep
          exact Or.inl hstep
      · obtain ⟨x, hx, hcx, hex⟩ := hex
        exact Or.inr ⟨x, List.mem_cons_of_mem y hx, hcx, hex⟩

theorem foldl_step_no_reemit {α : Type} (once : Bool) (cond : α → Bool) (key : α → String)
    (msg : α → String) (l : List α) (acc : List String × AlertState) (x : α)
    (ho : once = true) (hm : acc.2.notified (key x) = true) (hnm : msg x ∉ acc.1)
    (hinj : ∀ y ∈ l, msg y = msg x → key y = key x) :
    msg x ∉ (l.foldl (alertStep once cond key msg) acc).1 := by
  induction l generalizing acc with
  | nil => exact hnm
  | cons y t ih =>
      rw [List.foldl_cons]
      apply ih
      · exact alertStep_notified_mono once cond key msg acc y (key x) hm
      · unfold alertStep
        by_cases hc : cond y = true
        · rw [if_pos hc]
          by_cases hg : (!once || should_once acc.2 (key y)) = true
          · rw [if_pos hg]
            intro hmem
            rcases List.mem_append.mp hmem with h | h
            · exact hnm h
            · have hme : msg y = msg x := (List.mem_singleton.mp h).symm
              have hkey : key y = key x := hinj y (List.mem_cons_self y t) hme
              rw [ho] at hg
              simp only [Bool.not_true, Bool.false_or] at hg
              rw [should_once, hkey, hm] at hg
              exact Bool.noConfusion hg
          · rw [if_neg hg]
            exact hnm
        · rw [if_neg hc]
          exact hnm
      · exact fun z hz he => hinj z (List.mem_cons_of_mem y hz) he

end GoldTrend

namespace GoldTrend

/- ===== Confirm zone stage lemmas ===== -/

theorem confirmApply_msgs (once : Bool) (pm : ℚ) (cz : Option (Int × Int)) (p : ℚ)
    (acc : List String × AlertState) :
    ∃ ex, (confirmApply once pm cz p acc).1 = acc.1 ++ ex ∧
      (ex = [] → confirmApply once pm cz p acc = acc) := by
  unfold confirmApply
  cases cz with
  | none => exact ⟨[], by simp⟩
  | some z =>
      obtain ⟨lo, hi⟩ := z
      dsimp only
      by_cases hc : (decide ((lo : ℚ) ≤ p) && decide (p ≤ (hi : ℚ))) = true
      · rw [if_pos hc]
        by_cases hg : (!once || should_once acc.2 "upper_confirm") = true
        · rw [if_pos hg]
          exact ⟨[confirmMsg pm p lo hi], rfl, by intro h; cases h⟩
        · rw [if_neg hg]
          exact ⟨[], by simp⟩
      · rw [if_neg hc]
        exact ⟨[], by simp⟩

theorem mem_confirmApply (once : Bool) (pm : ℚ) (cz : Option (Int × Int)) (p : ℚ)
    (acc : List String × AlertState) (m : String) (hm : m ∈ acc.1) :
    m ∈ (confirmApply once pm cz p acc).1 := by
  obtain ⟨ex, he, _⟩ := confirmApply_msgs once pm cz p acc
  rw [he]
  exact List.mem_append_left ex hm

theorem confirmApply_notified_mono (once : Bool) (pm : ℚ) (cz : Option (Int × Int))
    (p : ℚ) (acc : List String × AlertState) (k : String)
    (h : acc.2.notified k = true) :
    (confirmApply once pm cz p acc).2.notified k = true := by
  unfold confirmApply
  cases cz with
  | none => exact h
  | some z =>
      obtain ⟨lo, hi⟩ := z
      dsimp only
      by_cases hc : (decide ((lo : ℚ) ≤ p) && decide (p ≤ (hi : ℚ))) = true
      · rw [if_pos hc]
        by_cases hg : (!once || should_once acc.2 "upper_confirm") = true
        · rw [if_pos hg]
          exact mark_once_notified_mono acc.2 "upper_confirm" k h
        · rw [if_neg hg]
          exact h
      · rw [if_neg hc]
        exact h

theorem confirmApply_notified_other (once : Bool) (pm : ℚ) (cz : Option (Int × Int))
    (p : ℚ) (acc : List String × AlertState) (k : String) (h : k ≠ "upper_confirm") :
    (confirmApply once pm cz p acc).2.notified k = acc.2.notified k := by
  unfold confirmApply
  cases cz with
  | none => rfl
  | some z =>
      obtain ⟨lo, hi⟩ := z
      dsimp only
      by_cases hc : (decide ((lo : ℚ) ≤ p) && decide (p ≤ (hi : ℚ))) = true
      · rw [if_pos hc]
        by_cases hg : (!once || should_once acc.2 "upper_confirm") = true
        · rw [if_pos hg]
          exact mark_once_notified_other acc.2 "upper_confirm" k h
        · rw [if_neg hg]
      · rw [if_neg hc]

theorem confirmApply_lotto (once : Bool) (pm : ℚ) (cz : Option (Int × Int))
    (p : ℚ) (acc : List String × AlertState) :
    (confirmApply once pm cz p acc).2.options_lotto_suggested =
      acc.2.options_lotto_suggested := by
  unfold confirmApply
  cases cz with
  | none => rfl
  | some z =>
      obtain ⟨lo, hi⟩ := z
      dsimp only
      by_cases hc : (decide ((lo : ℚ) ≤ p) && decide (p ≤ (hi : ℚ))) = true
      · rw [if_pos hc]
        by_cases hg : (!once || should_once acc.2 "upper_confirm") = true
        · rw [if_pos hg]
          exact mark_once_lotto acc.2 "upper_confirm"
        · rw [if_neg hg]
      · rw [if_neg hc]

theorem confirmApply_summary_ts (once : Bool) (pm : ℚ) (cz : Option (Int × Int))
    (p : ℚ) (acc : List String × AlertState) :
    (confirmApply once pm cz p acc).2.last_summary_ts = acc.2.last_summary_ts := by
  unfold confirmApply
  cases cz with
  | none => rfl
  | some z =>
      obtain ⟨lo, hi⟩ := z
      dsimp only
      by_cases hc : (decide ((lo : ℚ) ≤ p) && decide (p ≤ (hi : ℚ))) = true
      · rw [if_pos hc]
        by_cases hg : (!once || should_once acc.2 "upper_confirm") = true
        · rw [if_pos hg]
          exact mark_once_summary_ts acc.2 "upper_confirm"
        · rw [if_neg hg]
      · rw [if_neg hc]

theorem confirmApply_marks (once : Bool) (pm : ℚ) (lo hi : Int) (p : ℚ)
    (acc : List String × AlertState)
    (hc : (decide ((lo : ℚ) ≤ p) && decide (p ≤ (hi : ℚ))) = true) :
    (confirmApply once pm (some (lo, hi)) p acc).2.notified "upper_confirm" = true := by
  unfold confirmApply
  dsimp only
  rw [if_pos hc]
  by_cases hg : (!once || should_once acc.2 "upper_confirm") = true
  · rw [if_pos hg]
    exact mark_once_notified_self acc.2 "upper_confirm"
  · rw [if_neg hg]
    simp only [Bool.or_eq_true, not_or, Bool.not_eq_true] at hg
    obtain ⟨-, hg2⟩ := hg
    simpa [should_once] using hg2

theorem confirmApply_fires (once : Bool) (pm : ℚ) (lo hi : Int) (p : ℚ)
    (acc : List String × AlertState)
    (hc : (decide ((lo : ℚ) ≤ p) && decide (p ≤ (hi : ℚ))) = true)
    (hg : once = true → acc.2.notified "upper_confirm" = false) :
    confirmMsg pm p lo hi ∈ (confirmApply once pm (some (lo, hi)) p acc).1 := by
  unfold confirmApply
  dsimp only
  have hgb : (!once || should_once acc.2 "upper_confirm") = true := by
    cases ho : once with
    | false => simp
    | true => simp [should_once, hg ho]
  rw [if_pos hc, if_pos hgb]
  exact List.mem_append_right _ (List.mem_singleton_self _)

theorem confirmApply_mem_elim (once : Bool) (pm : ℚ) (cz : Option (Int × Int)) (p : ℚ)
    (acc : List String × AlertState) (m : String)
    (hm : m ∈ (confirmApply once pm cz p acc).1) :
    m ∈ acc.1 ∨ ∃ lo hi, cz = some (lo, hi) ∧
      (decide ((lo : ℚ) ≤ p) && decide (p ≤ (hi : ℚ))) = true ∧
      m = confirmMsg pm p lo hi := by
  unfold confirmApply at hm
  cases cz with
  | none => exact Or.inl hm
  | some z =>
      obtain ⟨lo, hi⟩ := z
      dsimp only at hm
      by_cases hc : (decide ((lo : ℚ) ≤ p) && decide (p ≤ (hi : ℚ))) = true
      · rw [if_pos hc] at hm
        by_cases hg : (!once || should_once acc.2 "upper_confirm") = true
        · rw [if_pos hg] at hm
          rcases List.mem_append.mp hm with h | h
          · exact Or.inl h
          · exact Or.inr ⟨lo, hi, rfl, hc, List.mem_singleton.mp h⟩
        · rw [if_neg hg] at hm
          exact Or.inl hm
      · rw [if_neg hc] at hm
        exact Or.inl hm

theorem confirmApply_no_reemit (once : Bool) (pm : ℚ) (cz : Option (Int × Int)) (p : ℚ)
    (acc : List String × AlertState) (m : String) (ho : once = true)
    (hmark : acc.2.notified "upper_confirm" = true) (hnm : m ∉ acc.1)
    (hcm : ∀ lo hi : Int, m = confirmMsg pm p lo hi → False) :
    m ∉ (confirmApply once pm cz p acc).1 := by
  intro hm
  rcases confirmApply_mem_elim once pm cz p acc m hm with h | ⟨lo, hi, _, _, he⟩
  · exact hnm h
  · exact hcm lo hi he

end GoldTrend

namespace GoldTrend

/- ===== Dynamic stops stage lemmas ===== -/

theorem dynStops_msgs (p : ℚ) (a : Option ℚ) (acc : List String × AlertState) :
    ∃ ex, (dynStops p a acc).1 = acc.1 ++ ex ∧ (ex = [] → dynStops p a acc = acc) := by
  unfold dynStops
  cases a with
  | none => exact ⟨[], by simp⟩
  | some v =>
      dsimp only
      by_cases hv : decide (0 < v) = true
      · rw [if_pos hv]
        exact ⟨[stopsMsg p v, ruleMsg], rfl, by intro h; cases h⟩
      · rw [if_neg hv]
        exact ⟨[], by simp⟩

theorem mem_dynStops (p : ℚ) (a : Option ℚ) (acc : List String × AlertState)
    (m : String) (hm : m ∈ acc.1) : m ∈ (dynStops p a acc).1 := by
  obtain ⟨ex, he, _⟩ := dynStops_msgs p a acc
  rw [he]
  exact List.mem_append_left ex hm

theorem dynStops_st (p : ℚ) (a : Option ℚ) (acc : List String × AlertState) :
    (dynStops p a acc).2 = acc.2 := by
  unfold dynStops
  cases a with
  | none => rfl
  | some v =>
      dsimp only
      by_cases hv : decide (0 < v) = true
      · rw [if_pos hv]
      · rw [if_neg hv]

theorem dynStops_mem_elim (p : ℚ) (a : Option ℚ) (acc : List String × AlertState)
    (m : String) (hm : m ∈ (dynStops p a acc).1) :
    m ∈ acc.1 ∨ ∃ v, a = some v ∧ 0 < v ∧ (m = stopsMsg p v ∨ m = ruleMsg) := by
  unfold dynStops at hm
  cases a with
  | none => exact Or.inl hm
  | some v =>
      dsimp only at hm
      by_cases hv : decide (0 < v) = true
      · rw [if_pos hv] at hm
        rcases List.mem_append.mp hm with h | h
        · exact Or.inl h
        · rcases List.mem_cons.mp h with h1 | h2
          · exact Or.inr ⟨v, rfl, of_decide_eq_true hv, Or.inl h1⟩
          · exact Or.inr ⟨v, rfl, of_decide_eq_true hv, Or.inr (List.mem_singleton.mp h2)⟩
      · rw [if_neg hv] at hm
        exact Or.inl hm

theorem dynStops_fires (p v : ℚ) (acc : List String × AlertState) (hv : 0 < v) :
    stopsMsg p v ∈ (dynStops p (some v) acc).1 ∧ ruleMsg ∈ (dynStops p (some v) acc).1 := by
  unfold dynStops
  dsimp only
  rw [if_pos (decide_eq_true hv)]
  constructor
  · exact List.mem_append_right _ (List.mem_cons_self _ _)
  · exact List.mem_append_right _ (List.mem_cons_of_mem _ (List.mem_singleton_self _))

/- ===== Options lotto stage lemmas ===== -/

theorem options_lotto_none_st (cfg : Config) (st : AlertState) (p : ℚ)
    (ext : Option LottoData) (h : (options_lotto_check cfg st p ext).1 = none) :
    (options_lotto_check cfg st p ext).2 = st := by
  unfold options_lotto_check at h ⊢
  by_cases h1 : (!cfg.options_lotto.enabled) = true
  · rw [if_pos h1]
  · rw [if_neg h1] at h ⊢
    by_cases h2 : (!(cfg.levels.buy_bands.any fun b =>
        (decide (b.name = "Band B") || decide (b.name = "Band C"))
          && in_band p (b.low : ℚ) (b.high : ℚ))) = true
    · rw [if_pos h2]
    · rw [if_neg h2] at h ⊢
      by_cases h3 : (cfg.options_lotto.notify_once && st.options_lotto_suggested) = true
      · rw [if_pos h3]
      · rw [if_neg h3] at h ⊢
        cases ext with
        | none => rfl
        | some d =>
            dsimp only at h ⊢
            by_cases h4 : decide (cfg.options_lotto.tenor_tolerance_days < d.best_diff) = true
            · rw [if_pos h4]
            · rw [if_neg h4] at h ⊢
              by_cases h5 : decide (cfg.options_lotto.iv_threshold < d.iv_mean) = true
              · rw [if_pos h5]
              · rw [if_neg h5] at h
                exact Option.noConfusion h

theorem options_lotto_notified (cfg : Config) (st : AlertState) (p : ℚ)
    (ext : Option LottoData) (k : String) :
    (options_lotto_check cfg st p ext).2.notified k = st.notified k := by
  unfold options_lotto_check
  by_cases h1 : (!cfg.options_lotto.enabled) = true
  · rw [if_pos h1]
  · rw [if_neg h1]
    by_cases h2 : (!(cfg.levels.buy_bands.any fun b =>
        (decide (b.name = "Band B") || decide (b.name = "Band C"))
          && in_band p (b.low : ℚ) (b.high : ℚ))) = true
    · rw [if_pos h2]
    · rw [if_neg h2]
      by_cases h3 : (cfg.options_lotto.notify_once && st.options_lotto_suggested) = true
      · rw [if_pos h3]
      · rw [if_neg h3]
        cases ext with
        | none => rfl
        | some d =>
            dsimp only
            by_cases h4 : decide (cfg.options_lotto.tenor_tolerance_days < d.best_diff) = true
            · rw [if_pos h4]
            · rw [if_neg h4]
              by_cases h5 : decide (cfg.options_lotto.iv_threshold < d.iv_mean) = true
              · rw [if_pos h5]
              · rw [if_neg h5]

theorem options_lotto_summary_ts (cfg : Config) (st : AlertState) (p : ℚ)
    (ext : Option LottoData) :
    (options_lotto_check cfg st p ext).2.last_summary_ts = st.last_summary_ts := by
  unfold options_lotto_check
  by_cases h1 : (!cfg.options_lotto.enabled) = true
  · rw [if_pos h1]
  · rw [if_neg h1]
    by_cases h2 : (!(cfg.levels.buy_bands.any fun b =>
        (decide (b.name = "Band B") || decide (b.name = "Band C"))
          && in_band p (b.low : ℚ) (b.high : ℚ))) = true
    · rw [if_pos h2]
    · rw [if_neg h2]
      by_cases h3 : (cfg.options_lotto.notify_once && st.options_lotto_suggested) = true
      · rw [if_pos h3]
      · rw [if_neg h3]
        cases ext with
        | none => rfl
        | some d =>
            dsimp only
            by_cases h4 : decide (cfg.options_lotto.tenor_tolerance_days < d.best_diff) = true
            · rw [if_pos h4]
            · rw [if_neg h4]
              by_cases h5 : decide (cfg.options_lotto.iv_threshold < d.iv_mean) = true
              · rw [if_pos h5]
              · rw [if_neg h5]

theorem options_lotto_some_msg (cfg : Config) (st : AlertState) (p : ℚ)
    (ext : Option LottoData) (m : String)
    (h : (options_lotto_check cfg st p ext).1 = some m) :
    ∃ d, ext = some d ∧ m = lottoMsg cfg.options_lotto d := by
  unfold options_lotto_check at h
  by_cases h1 : (!cfg.options_lotto.enabled) = true
  · rw [if_pos h1] at h
    exact Option.noConfusion h
  · rw [if_neg h1] at h
    by_cases h2 : (!(cfg.levels.buy_bands.any fun b =>
        (decide (b.name = "Band B") || decide (b.name = "Band C"))
          && in_band p (b.low : ℚ) (b.high : ℚ))) = true
    · rw [if_pos h2] at h
      exact Option.noConfusion h
    · rw [if_neg h2] at h
      by_cases h3 : (cfg.options_lotto.notify_once && st.options_lotto_suggested) = true
      · rw [if_pos h3] at h
        exact Option.noConfusion h
      · rw [if_neg h3] at h
        cases ext with
        | none => exact Option.noConfusion h
        | some d =>
            dsimp only at h
            by_cases h4 : decide (cfg.options_lotto.tenor_tolerance_days < d.best_diff) = true
            · rw [if_pos h4] at h
              exact Option.noConfusion h
            · rw [if_neg h4] at h
              by_cases h5 : decide (cfg.options_lotto.iv_threshold < d.iv_mean) = true
              · rw [if_pos h5] at h
                exact Option.noConfusion h
              · rw [if_neg h5] at h
                exact ⟨d, rfl, (Option.some.inj h).symm⟩

theorem lottoApply_msgs (cfg : Config) (p : ℚ) (ext : Option LottoData)
    (acc : List String × AlertState) :
    ∃ ex, (lottoApply cfg p ext acc).1 = acc.1 ++ ex ∧
      (ex = [] → lottoApply cfg p ext acc = acc) := by
  unfold lottoApply
  rcases hres : options_lotto_check cfg acc.2 p ext with ⟨om, st⟩
  cases om with
  | none =>
      refine ⟨[], by simp, fun _ => ?_⟩
      have hst : st = acc.2 := by
        have := options_lotto_none_st cfg acc.2 p ext (by rw [hres])
        rw [hres] at this
        exact this
      rw [hst]
  | some m =>
      obtain ⟨d, -, hmd⟩ := options_lotto_some_msg cfg acc.2 p ext m (by rw [hres])
      have hne : m.isEmpty = false := by
        rw [hmd]
        exact lottoMsg_isEmpty_false cfg.options_lotto d
      dsimp only
      rw [hne]
      exact ⟨[m], by simp, by intro h; cases h⟩

theorem mem_lottoApply (cfg : Config) (p : ℚ) (ext : Option LottoData)
    (acc : List String × AlertState) (m : String) (hm : m ∈ acc.1) :
    m ∈ (lottoApply cfg p ext acc).1 := by
  obtain ⟨ex, he, _⟩ := lottoApply_msgs cfg p ext acc
  rw [he]
  exact List.mem_append_left ex hm

theorem lottoApply_notified (cfg : Config) (p : ℚ) (ext : Option LottoData)
    (acc : List String × AlertState) (k : String) :
    (lottoApply cfg p ext acc).2.notified k = acc.2.notified k := by
  unfold lottoApply
  rcases hres : options_lotto_check cfg acc.2 p ext with ⟨om, st⟩
  have hnk : st.notified k = acc.2.notified k := by
    have := options_lotto_notified cfg acc.2 p ext k
    rw [hres] at this
    exact this
  cases om with
  | none => exact hnk
  | some m =>
      dsimp only
      by_cases he : m.isEmpty = true
      · rw [he]
        exact hnk
      · rw [Bool.not_eq_true] at he
        rw [he]
        exact hnk

theorem lottoApply_summary_ts (cfg : Config) (p : ℚ) (ext : Option LottoData)
    (acc : List String × AlertState) :
    (lottoApply cfg p ext acc).2.last_summary_ts = acc.2.last_summary_ts := by
  unfold lottoApply
  rcases hres : options_lotto_check cfg acc.2 p ext with ⟨om, st⟩
  have hts : st.last_summary_ts = acc.2.last_summary_ts := by
    have := options_lotto_summary_ts cfg acc.2 p ext
    rw [hres] at this
    exact this
  cases om with
  | none => exact hts
  | some m =>
      dsimp only
      by_cases he : m.isEmpty = true
      · rw [he]
        exact hts
      · rw [Bool.not_eq_true] at he
        rw [he]
        exact hts

theorem lottoApply_mem_elim (cfg : Config) (p : ℚ) (ext : Option LottoData)
    (acc : List String × AlertState) (m : String)
    (hm : m ∈ (lottoApply cfg p ext acc).1) :
    m ∈ acc.1 ∨ ∃ d, ext = some d ∧ m = lottoMsg cfg.options_lotto d := by
  unfold lottoApply at hm
  rcases hres : options_lotto_check cfg acc.2 p ext with ⟨om, st⟩
  rw [hres] at hm
  cases om with
  | none => exact Or.inl hm
  | some m' =>
      dsimp only at hm
      by_cases he : m'.isEmpty = true
      · rw [he] at hm
        exact Or.inl hm
      · rw [Bool.not_eq_true] at he
        rw [he] at hm
        rcases List.mem_append.mp hm with h | h
        · exact Or.inl h
        · obtain ⟨d, hd, hmd⟩ := options_lotto_some_msg cfg acc.2 p ext m' (by rw [hres])
          exact Or.inr ⟨d, hd, (List.mem_singleton.mp h) ▸ hmd⟩

end GoldTrend

namespace GoldTrend

/- ===== evalSignals composition ===== -/

theorem evalSignals_eq (envFx : Option ℚ) (cfg : Config) (p : ℚ) (a : Option ℚ)
    (ext : Option LottoData) (st : AlertState) :
    evalSignals envFx cfg p a ext st =
      lottoApply cfg p ext (dynStops p a
        (cfg.levels.stop_levels.foldl
          (alertStep cfg.notify_once_per_band (stopCond p) stopKey (riskMsg p))
          (confirmApply cfg.notify_once_per_band cfg.plan_gold_max_pct cfg.confirm_zone p
            (cfg.levels.buy_bands.foldl
              (alertStep cfg.notify_once_per_band (bandCond p) bandKey
                (bandMsg (_get_fx_rate envFx cfg) cfg.plan_gold_max_pct p)) ([], st))))) := rfl

theorem evalSignals_notified_mono (envFx : Option ℚ) (cfg : Config) (p : ℚ)
    (a : Option ℚ) (ext : Option LottoData) (st : AlertState) (k : String)
    (h : st.notified k = true) :
    (evalSignals envFx cfg p a ext st).2.notified k = true := by
  rw [evalSignals_eq, lottoApply_notified, dynStops_st]
  apply foldl_step_notified_mono
  apply confirmApply_notified_mono
  exact foldl_step_notified_mono _ _ _ _ _ _ _ h

theorem evalSignals_summary_ts (envFx : Option ℚ) (cfg : Config) (p : ℚ)
    (a : Option ℚ) (ext : Option LottoData) (st : AlertState) :
    (evalSignals envFx cfg p a ext st).2.last_summary_ts = st.last_summary_ts := by
  rw [evalSignals_eq, lottoApply_summary_ts, dynStops_st, foldl_step_summary_ts,
    confirmApply_summary_ts, foldl_step_summary_ts]

theorem evalSignals_nil (envFx : Option ℚ) (cfg : Config) (p : ℚ) (a : Option ℚ)
    (ext : Option LottoData) (st : AlertState)
    (h : (evalSignals envFx cfg p a ext st).1 = []) :
    evalSignals envFx cfg p a ext st = ([], st) := by
  rw [evalSignals_eq] at h ⊢
  obtain ⟨e5, he5, hz5⟩ := lottoApply_msgs cfg p ext _
  rw [he5] at h
  obtain ⟨h4, hz5e⟩ := List.append_eq_nil.mp h
  obtain ⟨e4, he4, hz4⟩ := dynStops_msgs p a _
  rw [he4] at h4
  obtain ⟨h3, hz4e⟩ := List.append_eq_nil.mp h4
  obtain ⟨e3, he3, hz3⟩ := foldl_step_msgs cfg.notify_once_per_band
    (stopCond p) stopKey (riskMsg p) cfg.levels.stop_levels _
  rw [he3] at h3
  obtain ⟨h2, hz3e⟩ := List.append_eq_nil.mp h3
  obtain ⟨e2, he2, hz2⟩ := confirmApply_msgs cfg.notify_once_per_band
    cfg.plan_gold_max_pct cfg.confirm_zone p _
  rw [he2] at h2
  obtain ⟨h1, hz2e⟩ := List.append_eq_nil.mp h2
  obtain ⟨e1, he1, hz1⟩ := foldl_step_msgs cfg.notify_once_per_band
    (bandCond p) bandKey
    (bandMsg (_get_fx_rate envFx cfg) cfg.plan_gold_max_pct p) cfg.levels.buy_bands ([], st)
  rw [he1] at h1
  obtain ⟨-, hz1e⟩ := List.append_eq_nil.mp h1
  rw [hz5 hz5e, hz4 hz4e, hz3 hz3e, hz2 hz2e, hz1 hz1e]

end GoldTrend

namespace GoldTrend

/- ===== check_and_alert field lemmas ===== -/

theorem check_and_alert_msgs_eq (envFx : Option ℚ) (cfg : Config) (p : ℚ) (a : Option ℚ)
    (ext : Option LottoData) (deliverOk : Bool) (st : AlertState) :
    (check_and_alert envFx cfg p a ext deliverOk st).msgs =
      (evalSignals envFx cfg p a ext st).1 := by
  unfold check_and_alert
  dsimp only
  by_cases hh : (evalSignals envFx cfg p a ext st).1.isEmpty = true
  · rw [if_pos hh]
  · rw [if_neg hh]

theorem check_and_alert_st_eq (envFx : Option ℚ) (cfg : Config) (p : ℚ) (a : Option ℚ)
    (ext : Option LottoData) (deliverOk : Bool) (st : AlertState) :
    (check_and_alert envFx cfg p a ext deliverOk st).st =
      (evalSignals envFx cfg p a ext st).2 := by
  unfold check_and_alert
  dsimp only
  by_cases hh : (evalSignals envFx cfg p a ext st).1.isEmpty = true
  · rw [if_pos hh]
  · rw [if_neg hh]

theorem check_and_alert_of_nil (envFx : Option ℚ) (cfg : Config) (p : ℚ) (a : Option ℚ)
    (ext : Option LottoData) (deliverOk : Bool) (st : AlertState)
    (h : (evalSignals envFx cfg p a ext st).1 = []) :
    check_and_alert envFx cfg p a ext deliverOk st =
      { msgs := [], st := st, body := none, tgResult := none, saved := false, ret := false } := by
  have h2 := evalSignals_nil envFx cfg p a ext st h
  unfold check_and_alert
  rw [h2]
  rfl

theorem check_and_alert_fired (envFx : Option ℚ) (cfg : Config) (p : ℚ) (a : Option ℚ)
    (ext : Option LottoData) (deliverOk : Bool) (st : AlertState)
    (h : (evalSignals envFx cfg p a ext st).1 ≠ []) :
    (check_and_alert envFx cfg p a ext deliverOk st).msgs =
        (evalSignals envFx cfg p a ext st).1 ∧
      (check_and_alert envFx cfg p a ext deliverOk st).st =
        (evalSignals envFx cfg p a ext st).2 ∧
      (check_and_alert envFx cfg p a ext deliverOk st).saved = true ∧
      (check_and_alert envFx cfg p a ext deliverOk st).tgResult = some deliverOk ∧
      (check_and_alert envFx cfg p a ext deliverOk st).ret = true := by
  have hh : ¬((evalSignals envFx cfg p a ext st).1.isEmpty = true) := by
    rw [List.isEmpty_eq_true]
    exact h
  unfold check_and_alert
  dsimp only
  rw [if_neg hh]
  exact ⟨rfl, rfl, rfl, rfl, rfl⟩

end GoldTrend

namespace GoldTrend

/-- C9: loading persisted state never fails: a missing state file yields the
empty state, and an unreadable or unparsable state file also yields the empty
state, with no error surfaced (load_state is a total function). -/
theorem c9_load_state_never_fails :
    load_state ReadOutcome.missing = emptyState ∧
    load_state ReadOutcome.failure = emptyState :=
  ⟨rfl, rfl⟩

/-- C6: in every evaluation cycle where no alert messages are produced,
check_and_alert returns the no-op signal False, leaves the input state
completely unchanged, performs no delivery (tg not invoked, no body built)
and performs no state persistence. -/
theorem c6_noop_frame (envFx : Option ℚ) (cfg : Config) (p : ℚ) (a : Option ℚ)
    (ext : Option LottoData) (deliverOk : Bool) (st : AlertState)
    (h : (check_and_alert envFx cfg p a ext deliverOk st).msgs = []) :
    (check_and_alert envFx cfg p a ext deliverOk st).ret = false ∧
    (check_and_alert envFx cfg p a ext deliverOk st).st = st ∧
    (check_and_alert envFx cfg p a ext deliverOk st).tgResult = none ∧
    (check_and_alert envFx cfg p a ext deliverOk st).body = none ∧
    (check_and_alert envFx cfg p a ext deliverOk st).saved = false := by
  have hm : (evalSignals envFx cfg p a ext st).1 = [] := by
    rw [← check_and_alert_msgs_eq envFx cfg p a ext deliverOk st]
    exact h
  have hrec := check_and_alert_of_nil envFx cfg p a ext deliverOk st hm
  rw [hrec]
  exact ⟨rfl, rfl, rfl, rfl, rfl⟩

/-- Witness for C6 at a concrete input: price 5000 is outside every band and
level and there is no volatility estimate, so no message is produced and the
cycle is a no-op. -/
theorem c6_noop_frame_witness :
    (check_and_alert none gtCFG 5000 none none true emptyState).msgs = [] ∧
    (check_and_alert none gtCFG 5000 none none true emptyState).ret = false ∧
    (check_and_alert none gtCFG 5000 none none true emptyState).st = emptyState ∧
    (check_and_alert none gtCFG 5000 none none true emptyState).saved = false :=
  have hm : (check_and_alert none gtCFG 5000 none none true emptyState).msgs = [] := by
    decide
  have hc := c6_noop_frame none gtCFG 5000 none none true emptyState hm
  ⟨hm, hc.1, hc.2.1, hc.2.2.2.2⟩

/-- C3: the evaluator never resets a notified flag: any key marked true in
the input state is still true in the state returned by check_and_alert, and
mark_once itself only sets flags to true (it preserves every true flag). -/
theorem c3_notified_never_reset (envFx : Option ℚ) (cfg : Config) (p : ℚ) (a : Option ℚ)
    (ext : Option LottoData) (deliverOk : Bool) (st : AlertState) (k : String)
    (h : st.notified k = true) :
    (check_and_alert envFx cfg p a ext deliverOk st).st.notified k = true ∧
    ∀ k', (mark_once st k').notified k = true := by
  constructor
  · rw [check_and_alert_st_eq]
    exact evalSignals_notified_mono envFx cfg p a ext st k h
  · exact fun k' => mark_once_notified_mono st k' k h

/-- Witness for C3 at a concrete input: a state with the Band A key already
notified keeps it notified after a full evaluation. -/
theorem c3_notified_never_reset_witness :
    (mark_once emptyState "buy_Band A").notified "buy_Band A" = true ∧
    (check_and_alert none gtCFG 5000 none none true
      (mark_once emptyState "buy_Band A")).st.notified "buy_Band A" = true :=
  have h : (mark_once emptyState "buy_Band A").notified "buy_Band A" = true := by decide
  ⟨h, (c3_notified_never_reset none gtCFG 5000 none none true
    (mark_once emptyState "buy_Band A") "buy_Band A" h).1⟩

/-- C7: when at least one alert fires, the updated state is persisted
regardless of the delivery outcome: with a failed delivery (tg returned
False) the cycle still persists, the delivery was attempted exactly once
with outcome False, no exception escapes (the model is total), and the
resulting state (hence every consumed once-guard key) is identical to the
state of the same cycle with a successful delivery. -/
theorem c7_persist_despite_delivery_failure (envFx : Option ℚ) (cfg : Config) (p : ℚ)
    (a : Option ℚ) (ext : Option LottoData) (st : AlertState)
    (h : (check_and_alert envFx cfg p a ext false st).msgs ≠ []) :
    (check_and_alert envFx cfg p a ext false st).saved = true ∧
    (check_and_alert envFx cfg p a ext false st).tgResult = some false ∧
    (check_and_alert envFx cfg p a ext false st).st =
      (check_and_alert envFx cfg p a ext true st).st ∧
    (check_and_alert envFx cfg p a ext false st).msgs =
      (check_and_alert envFx cfg p a ext true st).msgs ∧
    (check_and_alert envFx cfg p a ext true st).saved = true := by
  have hne : (evalSignals envFx cfg p a ext st).1 ≠ [] := by
    rw [← check_and_alert_msgs_eq envFx cfg p a ext false st]
    exact h
  obtain ⟨m1, s1, sv1, tg1, -⟩ := check_and_alert_fired envFx cfg p a ext false st hne
  obtain ⟨m2, s2, sv2, -, -⟩ := check_and_alert_fired envFx cfg p a ext true st hne
  refine ⟨sv1, tg1, ?_, ?_, sv2⟩
  · rw [s1, s2]
  · rw [m1, m2]

/-- Witness for C7 at a concrete input: price 3940 fires the Band A alert;
with delivery outcome False the state is still persisted. -/
theorem c7_persist_despite_delivery_failure_witness :
    (check_and_alert none gtCFG 3940 none none false emptyState).msgs ≠ [] ∧
    (check_and_alert none gtCFG 3940 none none false emptyState).saved = true ∧
    (check_and_alert none gtCFG 3940 none none false emptyState).tgResult = some false :=
  have h : (check_and_alert none gtCFG 3940 none none false emptyState).msgs ≠ [] := by
    decide
  have hc := c7_persist_despite_delivery_failure none gtCFG 3940 none none emptyState h
  ⟨h, hc.1, hc.2.1⟩

end GoldTrend

namespace GoldTrend

/-- C5: in run mode, when the cycle produced no alert messages and the price
is outside every buy band, outside the confirm zone and above every stop
level, the heartbeat is delivered (with last_summary_ts updated and the
state persisted) if and only if now - last_summary_ts is strictly greater
than 21600 seconds; at exactly 21600 it does not fire. -/
theorem c5_heartbeat_strict_boundary (envFx : Option ℚ) (cfg : Config) (p : ℚ)
    (a : Option ℚ) (ext : Option LottoData) (deliverOk : Bool) (st : AlertState)
    (now : Int)
    (hnone : (check_and_alert envFx cfg p a ext deliverOk st).msgs = [])
    (hbands : ∀ b ∈ cfg.levels.buy_bands, in_band p (b.low : ℚ) (b.high : ℚ) = false)
    (hcz : ∀ lo hi : Int, cfg.confirm_zone = some (lo, hi) →
      (decide ((lo : ℚ) ≤ p) && decide (p ≤ (hi : ℚ))) = false)
    (hstops : ∀ s ∈ cfg.levels.stop_levels, decide (p ≤ (s.price : ℚ)) = false) :
    ((run_cycle envFx cfg p a ext deliverOk st now).heartbeat = true ↔
        21600 < now - st.last_summary_ts) ∧
    ((run_cycle envFx cfg p a ext deliverOk st now).heartbeat = true →
        (run_cycle envFx cfg p a ext deliverOk st now).st.last_summary_ts = now ∧
        (run_cycle envFx cfg p a ext deliverOk st now).saved = true) ∧
    (now - st.last_summary_ts = 21600 →
        (run_cycle envFx cfg p a ext deliverOk st now).heartbeat = false) := by
  have hm : (evalSignals envFx cfg p a ext st).1 = [] := by
    rw [← check_and_alert_msgs_eq envFx cfg p a ext deliverOk st]
    exact hnone
  have hrec := check_and_alert_of_nil envFx cfg p a ext deliverOk st hm
  have h36 : (6 * 3600 : ℤ) = 21600 := by norm_num
  by_cases hlt : (6 * 3600 : ℤ) < now - st.last_summary_ts
  · have hr : run_cycle envFx cfg p a ext deliverOk st now =
        { evalRes := check_and_alert envFx cfg p a ext deliverOk st
          heartbeat := true
          st := { st with last_summary_ts := now }
          saved := true } := by
      unfold run_cycle
      rw [hrec]
      dsimp only
      rw [if_neg Bool.false_ne_true, if_pos (decide_eq_true hlt)]
    rw [hr]
    refine ⟨⟨fun _ => ?_, fun _ => rfl⟩, fun _ => ⟨rfl, rfl⟩, fun he => ?_⟩
    · rw [← h36]
      exact hlt
    · rw [he] at hlt
      rw [h36] at hlt
      exact absurd hlt (lt_irrefl _)
  · have hr : run_cycle envFx cfg p a ext deliverOk st now =
        { evalRes := check_and_alert envFx cfg p a ext deliverOk st
          heartbeat := false
          st := st
          saved := false } := by
      unfold run_cycle
      rw [hrec]
      dsimp only
      rw [if_neg Bool.false_ne_true, if_neg (by rwa [decide_eq_true_eq])]
    rw [hr]
    refine ⟨⟨fun he => absurd he Bool.false_ne_true, fun hgt => ?_⟩,
      fun he => absurd he Bool.false_ne_true, fun _ => rfl⟩
    rw [← h36] at hgt
    exact absurd hgt hlt

/-- Witness for C5 at concrete inputs: price 5000, no volatility, fresh state
(last_summary_ts = 0).  With now = 21601 the heartbeat fires; the theorem
also yields that with now = 21600 it would not. -/
theorem c5_heartbeat_strict_boundary_witness :
    (check_and_alert none gtCFG 5000 none none true emptyState).msgs = [] ∧
    ((run_cycle none gtCFG 5000 none none true emptyState 21601).heartbeat = true ↔
      21600 < (21601 : ℤ) - emptyState.last_summary_ts) := by
  have hnone : (check_and_alert none gtCFG 5000 none none true emptyState).msgs = [] := by
    decide
  have hcz : ∀ lo hi : Int, gtCFG.confirm_zone = some (lo, hi) →
      (decide ((lo : ℚ) ≤ (5000 : ℚ)) && decide ((5000 : ℚ) ≤ (hi : ℚ))) = false := by
    intro lo hi hh
    have h2 : ((4080 : Int), (4100 : Int)) = (lo, hi) := Option.some.inj hh
    injection h2 with ha hb
    subst ha
    subst hb
    decide
  refine ⟨hnone, ?_⟩
  exact (c5_heartbeat_strict_boundary none gtCFG 5000 none none true emptyState 21601
    hnone (by decide) hcz (by decide)).1

end GoldTrend

namespace GoldTrend

/-- C1 counterexample: at price 5000 (outside every band, the confirm zone
and every stop level) with volatility 20 and a fresh state, the emitted
message list is exactly the volatility stop suggestion plus its rule line:
the suggestion is included although no band, confirm-zone or risk-level
alert fired in the cycle, and the positive volatility estimate alone makes
the output non-empty (the cycle returns True and persists state). -/
theorem c1_counterexample :
    (check_and_alert none gtCFG 5000 (some 20) none true emptyState).msgs
        = [stopsMsg 5000 20, ruleMsg] ∧
    (check_and_alert none gtCFG 5000 (some 20) none true emptyState).ret = true ∧
    (check_and_alert none gtCFG 5000 (some 20) none true emptyState).saved = true ∧
    stopsMsg 5000 20 ∈ (check_and_alert none gtCFG 5000 (some 20) none true emptyState).msgs ∧
    bandMsg (_get_fx_rate none gtCFG) gtCFG.plan_gold_max_pct 5000
        { name := "Band A", low := 3920, high := 3960, target_plan_pct := 3/10 } ∉
      (check_and_alert none gtCFG 5000 (some 20) none true emptyState).msgs ∧
    bandMsg (_get_fx_rate none gtCFG) gtCFG.plan_gold_max_pct 5000
        { name := "Band B", low := 3850, high := 3920, target_plan_pct := 7/10 } ∉
      (check_and_alert none gtCFG 5000 (some 20) none true emptyState).msgs ∧
    bandMsg (_get_fx_rate none gtCFG) gtCFG.plan_gold_max_pct 5000
        { name := "Band C", low := 3780, high := 3850, target_plan_pct := 1 } ∉
      (check_and_alert none gtCFG 5000 (some 20) none true emptyState).msgs ∧
    confirmMsg gtCFG.plan_gold_max_pct 5000 4080 4100 ∉
      (check_and_alert none gtCFG 5000 (some 20) none true emptyState).msgs ∧
    riskMsg 5000 { name := "Risk-1 trim to 50%", price := 3650, action := "trim_to_50" } ∉
      (check_and_alert none gtCFG 5000 (some 20) none true emptyState).msgs ∧
    riskMsg 5000 { name := "Risk-2 cut to 0-30%", price := 3520, action := "cut_to_0_30" } ∉
      (check_and_alert none gtCFG 5000 (some 20) none true emptyState).msgs := by
  decide

/-- C1 amended: whenever the volatility estimate is present and positive the
volatility stop suggestion (with its rule line) is appended to the message
list unconditionally, whether or not any band, confirm-zone or risk-level
alert fired in the same cycle, so a positive volatility estimate by itself
makes the output non-empty and triggers delivery and persistence. -/
theorem c1_amended_stops_unconditional (envFx : Option ℚ) (cfg : Config) (p v : ℚ)
    (ext : Option LottoData) (deliverOk : Bool) (st : AlertState) (hv : 0 < v) :
    stopsMsg p v ∈ (check_and_alert envFx cfg p (some v) ext deliverOk st).msgs ∧
    ruleMsg ∈ (check_and_alert envFx cfg p (some v) ext deliverOk st).msgs ∧
    (check_and_alert envFx cfg p (some v) ext deliverOk st).ret = true ∧
    (check_and_alert envFx cfg p (some v) ext deliverOk st).saved = true := by
  have hmem : stopsMsg p v ∈ (evalSignals envFx cfg p (some v) ext st).1 ∧
      ruleMsg ∈ (evalSignals envFx cfg p (some v) ext st).1 := by
    rw [evalSignals_eq]
    exact ⟨mem_lottoApply _ _ _ _ _ ((dynStops_fires p v _ hv).1),
      mem_lottoApply _ _ _ _ _ ((dynStops_fires p v _ hv).2)⟩
  have hne : (evalSignals envFx cfg p (some v) ext st).1 ≠ [] := by
    intro hh
    rw [hh] at hmem
    exact List.not_mem_nil _ hmem.1
  obtain ⟨hm, -, hsv, -, hr⟩ :=
    check_and_alert_fired envFx cfg p (some v) ext deliverOk st hne
  refine ⟨?_, ?_, hr, hsv⟩
  · rw [hm]
    exact hmem.1
  · rw [hm]
    exact hmem.2

/-- Witness for the amended C1 at a concrete input: volatility 20 at price
5000 emits the stop suggestion and returns True. -/
theorem c1_amended_stops_unconditional_witness :
    (0 : ℚ) < 20 ∧
    stopsMsg 5000 20 ∈ (check_and_alert none gtCFG 5000 (some 20) none true emptyState).msgs ∧
    (check_and_alert none gtCFG 5000 (some 20) none true emptyState).ret = true :=
  have hv : (0 : ℚ) < 20 := by decide
  have hc := c1_amended_stops_unconditional none gtCFG 5000 20 none true emptyState hv
  ⟨hv, hc.1, hc.2.2.1⟩

end GoldTrend

namespace GoldTrend

set_option maxRecDepth 4000 in
/-- C4 counterexample: with identical Config, Observation (price 4000,
volatility 20) and title, fmt_status produces different text when the
FX_USDCNY environment value differs (8 versus unset, which falls back to the
config default 7.2): the RMB per gram conversions in the buy band rows
change, so the output does depend on an input other than Config,
Observation and title. -/
theorem c4_counterexample :
    fmt_status (some 8) gtCFG 4000 (some 20) "Gold Trend | Status" ≠
      fmt_status none gtCFG 4000 (some 20) "Gold Trend | Status" := by
  decide

/-- C4 amended: fmt_status is a deterministic pure function of the Config,
the Observation (price and volatility), the title and the FX_USDCNY
environment value: two calls with identical such inputs yield byte-identical
text, and the model mutates no state (fmt_status takes no state and returns
only text). -/
theorem c4_amended_fmt_status_deterministic (e1 e2 : Option ℚ) (c1 c2 : Config)
    (p1 p2 : ℚ) (a1 a2 : Option ℚ) (t1 t2 : String)
    (he : e1 = e2) (hc : c1 = c2) (hp : p1 = p2) (ha : a1 = a2) (ht : t1 = t2) :
    fmt_status e1 c1 p1 a1 t1 = fmt_status e2 c2 p2 a2 t2 := by
  rw [he, hc, hp, ha, ht]

/-- Witness for the amended C4 at concrete equal inputs. -/
theorem c4_amended_fmt_status_deterministic_witness :
    fmt_status none gtCFG 4000 (some 20) "Gold Trend | Status" =
      fmt_status none gtCFG 4000 (some 20) "Gold Trend | Status" :=
  c4_amended_fmt_status_deterministic none none gtCFG gtCFG 4000 4000 (some 20) (some 20)
    "Gold Trend | Status" "Gold Trend | Status" rfl rfl rfl rfl rfl

end GoldTrend

namespace GoldTrend

/- ===== Concrete message discrimination for the CFG bands and levels ===== -/

theorem bandMsg_A_at21 (fx : Option ℚ) (pm p : ℚ) :
    strAt (bandMsg fx pm p
      { name := "Band A", low := 3920, high := 3960, target_plan_pct := 3/10 }) 21
      = some 'A' := by
  unfold bandMsg
  dsimp only
  repeat (first | decide | apply strAt_append_eq_some)

theorem bandMsg_B_at21 (fx : Option ℚ) (pm p : ℚ) :
    strAt (bandMsg fx pm p
      { name := "Band B", low := 3850, high := 3920, target_plan_pct := 7/10 }) 21
      = some 'B' := by
  unfold bandMsg
  dsimp only
  repeat (first | decide | apply strAt_append_eq_some)

theorem bandMsg_C_at21 (fx : Option ℚ) (pm p : ℚ) :
    strAt (bandMsg fx pm p
      { name := "Band C", low := 3780, high := 3850, target_plan_pct := 1 }) 21
      = some 'C' := by
  unfold bandMsg
  dsimp only
  repeat (first | decide | apply strAt_append_eq_some)

theorem gt_bands_cases (b : Band) (hb : b ∈ gtCFG.levels.buy_bands) :
    b = { name := "Band A", low := 3920, high := 3960, target_plan_pct := 3/10 } ∨
    b = { name := "Band B", low := 3850, high := 3920, target_plan_pct := 7/10 } ∨
    b = { name := "Band C", low := 3780, high := 3850, target_plan_pct := 1 } := by
  have he : gtCFG.levels.buy_bands =
      [ { name := "Band A", low := 3920, high := 3960, target_plan_pct := 3/10 }
      , { name := "Band B", low := 3850, high := 3920, target_plan_pct := 7/10 }
      , { name := "Band C", low := 3780, high := 3850, target_plan_pct := 1 } ] := rfl
  rw [he] at hb
  rcases List.mem_cons.mp hb with h | hb2
  · exact Or.inl h
  rcases List.mem_cons.mp hb2 with h | hb3
  · exact Or.inr (Or.inl h)
  rcases List.mem_cons.mp hb3 with h | hb4
  · exact Or.inr (Or.inr h)
  · cases hb4

theorem gt_bandMsg_inj (fx : Option ℚ) (pm p : ℚ) (b b' : Band)
    (hb : b ∈ gtCFG.levels.buy_bands) (hb' : b' ∈ gtCFG.levels.buy_bands)
    (he : bandMsg fx pm p b' = bandMsg fx pm p b) : b' = b := by
  rcases gt_bands_cases b hb with rfl | rfl | rfl
  · rcases gt_bands_cases b' hb' with rfl | rfl | rfl
    · rfl
    · exact absurd he (ne_of_strAt (bandMsg_B_at21 fx pm p) (bandMsg_A_at21 fx pm p) (by decide))
    · exact absurd he (ne_of_strAt (bandMsg_C_at21 fx pm p) (bandMsg_A_at21 fx pm p) (by decide))
  · rcases gt_bands_cases b' hb' with rfl | rfl | rfl
    · exact absurd he (ne_of_strAt (bandMsg_A_at21 fx pm p) (bandMsg_B_at21 fx pm p) (by decide))
    · rfl
    · exact absurd he (ne_of_strAt (bandMsg_C_at21 fx pm p) (bandMsg_B_at21 fx pm p) (by decide))
  · rcases gt_bands_cases b' hb' with rfl | rfl | rfl
    · exact absurd he (ne_of_strAt (bandMsg_A_at21 fx pm p) (bandMsg_C_at21 fx pm p) (by decide))
    · exact absurd he (ne_of_strAt (bandMsg_B_at21 fx pm p) (bandMsg_C_at21 fx pm p) (by decide))
    · rfl

end GoldTrend

namespace GoldTrend

set_option maxHeartbeats 1600000 in
theorem gt_band_emitted (envFx : Option ℚ) (p : ℚ) (a : Option ℚ) (ext : Option LottoData)
    (st : AlertState) (b : Band) (hb : b ∈ gtCFG.levels.buy_bands)
    (hin : bandCond p b = true)
    (hg : st.notified (bandKey b) = false) :
    bandMsg (_get_fx_rate envFx gtCFG) gtCFG.plan_gold_max_pct p b ∈
      (evalSignals envFx gtCFG p a ext st).1 := by
  rw [evalSignals_eq]
  apply mem_lottoApply
  apply mem_dynStops
  apply mem_foldl_step
  apply mem_confirmApply
  refine foldl_step_fires_mem gtCFG.notify_once_per_band
    (bandCond p) bandKey
    (bandMsg (_get_fx_rate envFx gtCFG) gtCFG.plan_gold_max_pct p)
    gtCFG.levels.buy_bands ([], st) b hin hb (fun _ => hg) ?_
  intro y hy he
  rcases gt_bands_cases b hb with rfl | rfl | rfl <;>
    rcases gt_bands_cases y hy with rfl | rfl | rfl <;>
    first
      | rfl
      | exact absurd he (by decide)

set_option maxHeartbeats 1600000 in
theorem gt_band_emitted_elim (envFx : Option ℚ) (p : ℚ) (a : Option ℚ)
    (ext : Option LottoData) (st : AlertState) (b : Band)
    (hb : b ∈ gtCFG.levels.buy_bands)
    (hmem : bandMsg (_get_fx_rate envFx gtCFG) gtCFG.plan_gold_max_pct p b ∈
      (evalSignals envFx gtCFG p a ext st).1) :
    bandCond p b = true ∧
    (evalSignals envFx gtCFG p a ext st).2.notified (bandKey b) = true := by
  have hmem2 := hmem
  rw [evalSignals_eq] at hmem2
  rcases lottoApply_mem_elim _ _ _ _ _ hmem2 with h4 | ⟨d, -, heq⟩
  swap
  · exact absurd heq (ne_of_strAt (bandMsg_strAt0 _ _ _ _) (lottoMsg_strAt0 _ _) (by decide))
  rcases dynStops_mem_elim _ _ _ _ h4 with h3 | ⟨v, -, -, heq | heq⟩
  rotate_left
  · exact absurd heq (ne_of_strAt (bandMsg_strAt0 _ _ _ _) (stopsMsg_strAt0 _ _) (by decide))
  · exact absurd heq (ne_of_strAt (bandMsg_strAt0 _ _ _ _) ruleMsg_strAt0 (by decide))
  rcases foldl_step_mem_elim _ _ _ _ _ _ _ h3 with h2 | ⟨s', -, -, heq⟩
  swap
  · exact absurd heq (ne_of_strAt (riskMsg_strAt0 _ _) (bandMsg_strAt0 _ _ _ _) (by decide))
  rcases confirmApply_mem_elim _ _ _ _ _ _ h2 with h1 | ⟨lo, hi, -, -, heq⟩
  swap
  · exact absurd heq (ne_of_strAt (bandMsg_strAt0 _ _ _ _) (confirmMsg_strAt0 _ _ _ _) (by decide))
  rcases foldl_step_mem_elim _ _ _ _ _ _ _ h1 with h0 | ⟨b', hb', hcb', heq⟩
  · exact absurd h0 (List.not_mem_nil _)
  have hbb : b' = b := gt_bandMsg_inj _ _ _ b b' hb hb' heq
  subst hbb
  refine ⟨hcb', ?_⟩
  have hmk1 := foldl_step_marks gtCFG.notify_once_per_band
    (bandCond p) bandKey
    (bandMsg (_get_fx_rate envFx gtCFG) gtCFG.plan_gold_max_pct p)
    gtCFG.levels.buy_bands ([], st) b' hb hcb'
  rw [evalSignals_eq, lottoApply_notified, dynStops_st]
  exact foldl_step_notified_mono _ _ _ _ _ _ _
    (confirmApply_notified_mono _ _ _ _ _ _ hmk1)

set_option maxHeartbeats 1600000 in
theorem gt_band_not_reemitted (envFx : Option ℚ) (p : ℚ) (a : Option ℚ)
    (ext : Option LottoData) (st : AlertState) (b : Band)
    (hb : b ∈ gtCFG.levels.buy_bands)
    (hmk : st.notified (bandKey b) = true) :
    bandMsg (_get_fx_rate envFx gtCFG) gtCFG.plan_gold_max_pct p b ∉
      (evalSignals envFx gtCFG p a ext st).1 := by
  rw [evalSignals_eq]
  intro hmem
  rcases lottoApply_mem_elim _ _ _ _ _ hmem with h4 | ⟨d, -, heq⟩
  swap
  · exact absurd heq (ne_of_strAt (bandMsg_strAt0 _ _ _ _) (lottoMsg_strAt0 _ _) (by decide))
  rcases dynStops_mem_elim _ _ _ _ h4 with h3 | ⟨v, -, -, heq | heq⟩
  rotate_left
  · exact absurd heq (ne_of_strAt (bandMsg_strAt0 _ _ _ _) (stopsMsg_strAt0 _ _) (by decide))
  · exact absurd heq (ne_of_strAt (bandMsg_strAt0 _ _ _ _) ruleMsg_strAt0 (by decide))
  rcases foldl_step_mem_elim _ _ _ _ _ _ _ h3 with h2 | ⟨s', -, -, heq⟩
  swap
  · exact absurd heq (ne_of_strAt (riskMsg_strAt0 _ _) (bandMsg_strAt0 _ _ _ _) (by decide))
  rcases confirmApply_mem_elim _ _ _ _ _ _ h2 with h1 | ⟨lo, hi, -, -, heq⟩
  swap
  · exact absurd heq (ne_of_strAt (bandMsg_strAt0 _ _ _ _) (confirmMsg_strAt0 _ _ _ _) (by decide))
  exact foldl_step_no_reemit gtCFG.notify_once_per_band
    (bandCond p) bandKey
    (bandMsg (_get_fx_rate envFx gtCFG) gtCFG.plan_gold_max_pct p)
    gtCFG.levels.buy_bands ([], st) b rfl hmk (List.not_mem_nil _)
    (fun y hy he => congrArg bandKey (gt_bandMsg_inj _ _ _ b y hb hy he)) h1

end GoldTrend

namespace GoldTrend

/-- C2: with notify_once_per_band true (as in the CFG), if an evaluation at
price p emits the buy-band alert of a configured band (its key being marked
notified in the updated state), then a second evaluation run on that updated
state at the same price does not re-emit that band alert, whereas an
evaluation from the fresh empty state at the same in-band price does emit
it. -/
theorem c2_once_per_band (envFx : Option ℚ) (p : ℚ) (a : Option ℚ) (ext : Option LottoData)
    (deliverOk : Bool) (st : AlertState) (b : Band)
    (hb : b ∈ gtCFG.levels.buy_bands)
    (h1 : bandMsg (_get_fx_rate envFx gtCFG) gtCFG.plan_gold_max_pct p b ∈
      (check_and_alert envFx gtCFG p a ext deliverOk st).msgs) :
    bandMsg (_get_fx_rate envFx gtCFG) gtCFG.plan_gold_max_pct p b ∉
      (check_and_alert envFx gtCFG p a ext deliverOk
        (check_and_alert envFx gtCFG p a ext deliverOk st).st).msgs ∧
    bandMsg (_get_fx_rate envFx gtCFG) gtCFG.plan_gold_max_pct p b ∈
      (check_and_alert envFx gtCFG p a ext deliverOk emptyState).msgs := by
  rw [check_and_alert_msgs_eq] at h1
  obtain ⟨hin, hmk⟩ := gt_band_emitted_elim envFx p a ext st b hb h1
  constructor
  · rw [check_and_alert_msgs_eq, check_and_alert_st_eq]
    exact gt_band_not_reemitted envFx p a ext _ b hb hmk
  · rw [check_and_alert_msgs_eq]
    exact gt_band_emitted envFx p a ext emptyState b hb hin rfl

set_option maxHeartbeats 1600000 in
/-- Witness for C2 at a concrete input: price 3940 lies in Band A; from the
empty state the alert is emitted, and on the updated state it is not
re-emitted. -/
theorem c2_once_per_band_witness :
    { name := "Band A", low := 3920, high := 3960, target_plan_pct := 3/10 } ∈
        gtCFG.levels.buy_bands ∧
    bandMsg (_get_fx_rate none gtCFG) gtCFG.plan_gold_max_pct 3940
        { name := "Band A", low := 3920, high := 3960, target_plan_pct := 3/10 } ∈
      (check_and_alert none gtCFG 3940 none none true emptyState).msgs ∧
    bandMsg (_get_fx_rate none gtCFG) gtCFG.plan_gold_max_pct 3940
        { name := "Band A", low := 3920, high := 3960, target_plan_pct := 3/10 } ∉
      (check_and_alert none gtCFG 3940 none none true
        (check_and_alert none gtCFG 3940 none none true emptyState).st).msgs :=
  have hb : ({ name := "Band A", low := 3920, high := 3960, target_plan_pct := 3/10 } : Band) ∈
      gtCFG.levels.buy_bands := by decide
  have h1 : bandMsg (_get_fx_rate none gtCFG) gtCFG.plan_gold_max_pct 3940
      { name := "Band A", low := 3920, high := 3960, target_plan_pct := 3/10 } ∈
      (check_and_alert none gtCFG 3940 none none true emptyState).msgs := by decide
  ⟨hb, h1, (c2_once_per_band none 3940 none none true emptyState
    { name := "Band A", low := 3920, high := 3960, target_plan_pct := 3/10 } hb h1).1⟩

end GoldTrend

namespace GoldTrend

theorem gt_stops_cases (s : StopLevel) (hs : s ∈ gtCFG.levels.stop_levels) :
    s = { name := "Risk-1 trim to 50%", price := 3650, action := "trim_to_50" } ∨
    s = { name := "Risk-2 cut to 0-30%", price := 3520, action := "cut_to_0_30" } := by
  have he : gtCFG.levels.stop_levels =
      [ { name := "Risk-1 trim to 50%", price := 3650, action := "trim_to_50" }
      , { name := "Risk-2 cut to 0-30%", price := 3520, action := "cut_to_0_30" } ] := rfl
  rw [he] at hs
  rcases List.mem_cons.mp hs with h | hs2
  · exact Or.inl h
  rcases List.mem_cons.mp hs2 with h | hs3
  · exact Or.inr h
  · cases hs3

theorem evalSignals_risk_fires (envFx : Option ℚ) (cfg : Config) (p : ℚ) (a : Option ℚ)
    (ext : Option LottoData) (st : AlertState) (s : StopLevel)
    (hs : s ∈ cfg.levels.stop_levels)
    (hp : stopCond p s = true)
    (hg : cfg.notify_once_per_band = true → st.notified (stopKey s) = false)
    (hcz : stopKey s ≠ "upper_confirm")
    (hbk : ∀ b ∈ cfg.levels.buy_bands, bandKey b ≠ stopKey s)
    (hk : ∀ y ∈ cfg.levels.stop_levels, stopKey y = stopKey s → y = s) :
    riskMsg p s ∈ (evalSignals envFx cfg p a ext st).1 := by
  rw [evalSignals_eq]
  apply mem_lottoApply
  apply mem_dynStops
  refine foldl_step_fires_mem cfg.notify_once_per_band
    (stopCond p) stopKey (riskMsg p)
    cfg.levels.stop_levels _ s hp hs ?_ hk
  intro ho
  rw [confirmApply_notified_other _ _ _ _ _ _ hcz,
    foldl_step_notified_other _ _ _ _ _ _ _ hbk]
  exact hg ho

theorem evalSignals_risk_marks (envFx : Option ℚ) (cfg : Config) (p : ℚ) (a : Option ℚ)
    (ext : Option LottoData) (st : AlertState) (s : StopLevel)
    (hs : s ∈ cfg.levels.stop_levels)
    (hp : stopCond p s = true) :
    (evalSignals envFx cfg p a ext st).2.notified (stopKey s) = true := by
  rw [evalSignals_eq, lottoApply_notified, dynStops_st]
  exact foldl_step_marks cfg.notify_once_per_band
    (stopCond p) stopKey (riskMsg p)
    cfg.levels.stop_levels _ s hs hp

/-- C8: for every configured stop level, when price is at or below the
trigger (one-sided threshold) and the once guard allows it, the risk alert
is emitted and the level key is marked notified; the alert text carries the
action mapped through the lookup table, whose entries send cut_to_0_30 and
trim_to_50 to their fixed texts and every unknown tag to "Risk action". -/
theorem c8_risk_levels (envFx : Option ℚ) (p : ℚ) (a : Option ℚ) (ext : Option LottoData)
    (deliverOk : Bool) (st : AlertState) (s : StopLevel)
    (hs : s ∈ gtCFG.levels.stop_levels)
    (hp : p ≤ (s.price : ℚ))
    (hg : st.notified (stopKey s) = false) :
    riskMsg p s ∈ (check_and_alert envFx gtCFG p a ext deliverOk st).msgs ∧
    (check_and_alert envFx gtCFG p a ext deliverOk st).st.notified (stopKey s) = true ∧
    riskMsg p s = "Risk level *" ++ s.name ++ "* @ " ++ toString s.price ++ " | price *"
      ++ fmtFixed 2 p ++ "* -> " ++ action_map s.action ∧
    action_map "cut_to_0_30" = "Cut position to 0-30%, re-evaluate" ∧
    action_map "trim_to_50" = "Trim total position to 50% and wait" ∧
    (∀ tag : String, tag ≠ "trim_to_50" → tag ≠ "cut_to_0_30" →
      action_map tag = "Risk action") := by
  have hsv := gt_stops_cases s hs
  refine ⟨?_, ?_, rfl, by decide, by decide, ?_⟩
  · rw [check_and_alert_msgs_eq]
    refine evalSignals_risk_fires envFx gtCFG p a ext st s hs
      (by unfold stopCond; exact decide_eq_true hp) (fun _ => hg) ?_ ?_ ?_
    · rcases hsv with h | h <;> subst h <;> decide
    · rcases hsv with h | h <;> subst h <;> decide
    · intro y hy he
      rcases hsv with h | h <;> subst h <;>
        rcases gt_stops_cases y hy with h2 | h2 <;> subst h2 <;>
        first
          | rfl
          | exact absurd he (by decide)
  · rw [check_and_alert_st_eq]
    exact evalSignals_risk_marks envFx gtCFG p a ext st s hs
      (by unfold stopCond; exact decide_eq_true hp)
  · intro tag h1 h2
    unfold action_map
    rw [if_neg h1, if_neg h2]

/-- Witness for C8 at a concrete input: price 3500 is at or below the 3520
stop level whose action tag is cut_to_0_30; the alert is emitted with the
mapped text and the key is marked. -/
theorem c8_risk_levels_witness :
    ({ name := "Risk-2 cut to 0-30%", price := 3520, action := "cut_to_0_30" } : StopLevel) ∈
        gtCFG.levels.stop_levels ∧
    ((3500 : ℚ) ≤ (((3520 : Int) : ℚ))) ∧
    riskMsg 3500 { name := "Risk-2 cut to 0-30%", price := 3520, action := "cut_to_0_30" } ∈
      (check_and_alert none gtCFG 3500 none none true emptyState).msgs ∧
    (check_and_alert none gtCFG 3500 none none true emptyState).st.notified
      (stopKey { name := "Risk-2 cut to 0-30%", price := 3520, action := "cut_to_0_30" }) = true ∧
    action_map "cut_to_0_30" = "Cut position to 0-30%, re-evaluate" :=
  have hs : ({ name := "Risk-2 cut to 0-30%", price := 3520, action := "cut_to_0_30" } : StopLevel) ∈
      gtCFG.levels.stop_levels := by decide
  have hp : (3500 : ℚ) ≤ (((3520 : Int) : ℚ)) := by decide
  have hg : emptyState.notified
      (stopKey { name := "Risk-2 cut to 0-30%", price := 3520, action := "cut_to_0_30" }) = false := by
    decide
  have hc := c8_risk_levels none 3500 none none true emptyState
    { name := "Risk-2 cut to 0-30%", price := 3520, action := "cut_to_0_30" } hs hp hg
  ⟨hs, hp, hc.1, hc.2.1, hc.2.2.2.1⟩

end GoldTrend

namespace GoldTrend

/- ===== General emission and marking lemmas for bands and the confirm zone ===== -/

theorem evalSignals_band_fires (envFx : Option ℚ) (cfg : Config) (p : ℚ) (a : Option ℚ)
    (ext : Option LottoData) (st : AlertState) (b : Band)
    (hb : b ∈ cfg.levels.buy_bands)
    (hin : bandCond p b = true)
    (hg : cfg.notify_once_per_band = true → st.notified (bandKey b) = false)
    (hk : ∀ y ∈ cfg.levels.buy_bands, bandKey y = bandKey b → y = b) :
    bandMsg (_get_fx_rate envFx cfg) cfg.plan_gold_max_pct p b ∈
      (evalSignals envFx cfg p a ext st).1 := by
  rw [evalSignals_eq]
  apply mem_lottoApply
  apply mem_dynStops
  apply mem_foldl_step
  apply mem_confirmApply
  exact foldl_step_fires_mem cfg.notify_once_per_band (bandCond p) bandKey
    (bandMsg (_get_fx_rate envFx cfg) cfg.plan_gold_max_pct p)
    cfg.levels.buy_bands ([], st) b hin hb hg hk

theorem evalSignals_band_marks (envFx : Option ℚ) (cfg : Config) (p : ℚ) (a : Option ℚ)
    (ext : Option LottoData) (st : AlertState) (b : Band)
    (hb : b ∈ cfg.levels.buy_bands)
    (hin : bandCond p b = true) :
    (evalSignals envFx cfg p a ext st).2.notified (bandKey b) = true := by
  rw [evalSignals_eq, lottoApply_notified, dynStops_st]
  exact foldl_step_notified_mono _ _ _ _ _ _ _
    (confirmApply_notified_mono _ _ _ _ _ _
      (foldl_step_marks cfg.notify_once_per_band (bandCond p) bandKey
        (bandMsg (_get_fx_rate envFx cfg) cfg.plan_gold_max_pct p)
        cfg.levels.buy_bands ([], st) b hb hin))

theorem evalSignals_confirm_fires (envFx : Option ℚ) (cfg : Config) (p : ℚ) (a : Option ℚ)
    (ext : Option LottoData) (st : AlertState) (lo hi : Int)
    (hcz : cfg.confirm_zone = some (lo, hi))
    (hcond : (decide ((lo : ℚ) ≤ p) && decide (p ≤ (hi : ℚ))) = true)
    (hg : cfg.notify_once_per_band = true → st.notified "upper_confirm" = false)
    (hbk : ∀ b ∈ cfg.levels.buy_bands, bandKey b ≠ "upper_confirm") :
    confirmMsg cfg.plan_gold_max_pct p lo hi ∈ (evalSignals envFx cfg p a ext st).1 := by
  rw [evalSignals_eq]
  apply mem_lottoApply
  apply mem_dynStops
  apply mem_foldl_step
  rw [hcz]
  refine confirmApply_fires cfg.notify_once_per_band cfg.plan_gold_max_pct lo hi p _
    hcond ?_
  intro ho
  rw [foldl_step_notified_other _ _ _ _ _ _ _ hbk]
  exact hg ho

theorem evalSignals_confirm_marks (envFx : Option ℚ) (cfg : Config) (p : ℚ) (a : Option ℚ)
    (ext : Option LottoData) (st : AlertState) (lo hi : Int)
    (hcz : cfg.confirm_zone = some (lo, hi))
    (hcond : (decide ((lo : ℚ) ≤ p) && decide (p ≤ (hi : ℚ))) = true) :
    (evalSignals envFx cfg p a ext st).2.notified "upper_confirm" = true := by
  rw [evalSignals_eq, lottoApply_notified, dynStops_st]
  apply foldl_step_notified_mono
  rw [hcz]
  exact confirmApply_marks cfg.notify_once_per_band cfg.plan_gold_max_pct lo hi p _ hcond

theorem confirmApply_marked_id (once : Bool) (pm : ℚ) (cz : Option (Int × Int)) (p : ℚ)
    (acc : List String × AlertState) (ho : once = true)
    (hmk : acc.2.notified "upper_confirm" = true) :
    (confirmApply once pm cz p acc).1 = acc.1 := by
  unfold confirmApply
  cases cz with
  | none => rfl
  | some z =>
      obtain ⟨lo, hi⟩ := z
      dsimp only
      by_cases hc : (decide ((lo : ℚ) ≤ p) && decide (p ≤ (hi : ℚ))) = true
      · have hgf : (!once || should_once acc.2 "upper_confirm") = false := by
          rw [ho]
          simp [should_once, hmk]
        rw [if_pos hc, hgf, if_neg Bool.false_ne_true]
      · rw [if_neg hc]

end GoldTrend

namespace GoldTrend

/- ===== Suppression lemmas under the active once guard (gtCFG) ===== -/

theorem gt_confirm_not_reemitted (envFx : Option ℚ) (p : ℚ) (a : Option ℚ)
    (ext : Option LottoData) (st : AlertState) (lo hi : Int)
    (hmk : st.notified "upper_confirm" = true) :
    confirmMsg gtCFG.plan_gold_max_pct p lo hi ∉ (evalSignals envFx gtCFG p a ext st).1 := by
  rw [evalSignals_eq]
  intro hmem
  rcases lottoApply_mem_elim _ _ _ _ _ hmem with h4 | ⟨d, -, heq⟩
  swap
  · exact absurd heq (ne_of_strAt (confirmMsg_strAt0 _ _ _ _) (lottoMsg_strAt0 _ _) (by decide))
  rcases dynStops_mem_elim _ _ _ _ h4 with h3 | ⟨v, -, -, heq | heq⟩
  rotate_left
  · exact absurd heq (ne_of_strAt (confirmMsg_strAt0 _ _ _ _) (stopsMsg_strAt0 _ _) (by decide))
  · exact absurd heq (ne_of_strAt (confirmMsg_strAt0 _ _ _ _) ruleMsg_strAt0 (by decide))
  rcases foldl_step_mem_elim _ _ _ _ _ _ _ h3 with h2 | ⟨s', -, -, heq⟩
  swap
  · exact absurd heq (ne_of_strAt (riskMsg_strAt0 _ _) (confirmMsg_strAt0 _ _ _ _) (by decide))
  rw [confirmApply_marked_id gtCFG.notify_once_per_band gtCFG.plan_gold_max_pct
    gtCFG.confirm_zone p _ rfl
    (foldl_step_notified_mono _ _ _ _ _ _ _ hmk)] at h2
  rcases foldl_step_mem_elim _ _ _ _ _ _ _ h2 with h0 | ⟨b', -, -, heq⟩
  · exact absurd h0 (List.not_mem_nil _)
  · exact absurd heq (ne_of_strAt (bandMsg_strAt0 _ _ _ _) (confirmMsg_strAt0 _ _ _ _) (by decide))

theorem riskMsg_R1_at17 (p : ℚ) :
    strAt (riskMsg p
      { name := "Risk-1 trim to 50%", price := 3650, action := "trim_to_50" }) 17
      = some '1' := by
  unfold riskMsg
  dsimp only
  repeat (first | decide | apply strAt_append_eq_some)

theorem riskMsg_R2_at17 (p : ℚ) :
    strAt (riskMsg p
      { name := "Risk-2 cut to 0-30%", price := 3520, action := "cut_to_0_30" }) 17
      = some '2' := by
  unfold riskMsg
  dsimp only
  repeat (first | decide | apply strAt_append_eq_some)

theorem gt_riskMsg_inj (p : ℚ) (s s' : StopLevel)
    (hs : s ∈ gtCFG.levels.stop_levels) (hs' : s' ∈ gtCFG.levels.stop_levels)
    (he : riskMsg p s' = riskMsg p s) : s' = s := by
  rcases gt_stops_cases s hs with rfl | rfl
  · rcases gt_stops_cases s' hs' with rfl | rfl
    · rfl
    · exact absurd he (ne_of_strAt (riskMsg_R2_at17 p) (riskMsg_R1_at17 p) (by decide))
  · rcases gt_stops_cases s' hs' with rfl | rfl
    · exact absurd he (ne_of_strAt (riskMsg_R1_at17 p) (riskMsg_R2_at17 p) (by decide))
    · rfl

theorem gt_risk_not_reemitted (envFx : Option ℚ) (p : ℚ) (a : Option ℚ)
    (ext : Option LottoData) (st : AlertState) (s : StopLevel)
    (hs : s ∈ gtCFG.levels.stop_levels)
    (hmk : st.notified (stopKey s) = true) :
    riskMsg p s ∉ (evalSignals envFx gtCFG p a ext st).1 := by
  rw [evalSignals_eq]
  intro hmem
  rcases lottoApply_mem_elim _ _ _ _ _ hmem with h4 | ⟨d, -, heq⟩
  swap
  · exact absurd heq (ne_of_strAt (riskMsg_strAt0 _ _) (lottoMsg_strAt0 _ _) (by decide))
  rcases dynStops_mem_elim _ _ _ _ h4 with h3 | ⟨v, -, -, heq | heq⟩
  rotate_left
  · exact absurd heq (ne_of_strAt (riskMsg_strAt0 _ _) (stopsMsg_strAt0 _ _) (by decide))
  · exact absurd heq (ne_of_strAt (riskMsg_strAt1 _ _) ruleMsg_strAt1 (by decide))
  refine foldl_step_no_reemit gtCFG.notify_once_per_band (stopCond p) stopKey (riskMsg p)
    gtCFG.levels.stop_levels _ s rfl
    (confirmApply_notified_mono _ _ _ _ _ _
      (foldl_step_notified_mono _ _ _ _ _ _ _ hmk)) ?_
    (fun y hy he => congrArg stopKey (gt_riskMsg_inj p s y hs hy he)) h3
  intro h2
  rcases confirmApply_mem_elim _ _ _ _ _ _ h2 with h1 | ⟨lo, hi, -, -, heq⟩
  swap
  · exact absurd heq (ne_of_strAt (riskMsg_strAt0 _ _) (confirmMsg_strAt0 _ _ _ _) (by decide))
  rcases foldl_step_mem_elim _ _ _ _ _ _ _ h1 with h0 | ⟨b', -, -, heq⟩
  · exact absurd h0 (List.not_mem_nil _)
  · exact absurd heq (ne_of_strAt (bandMsg_strAt0 _ _ _ _) (riskMsg_strAt0 _ _) (by decide))

end GoldTrend

namespace GoldTrend

theorem gtCFGoff_levels : gtCFGoff.levels = gtCFG.levels := rfl

theorem gtCFGoff_pm : gtCFGoff.plan_gold_max_pct = gtCFG.plan_gold_max_pct := rfl

theorem gtCFGoff_cz : gtCFGoff.confirm_zone = gtCFG.confirm_zone := rfl

theorem gtCFGoff_fx (envFx : Option ℚ) :
    _get_fx_rate envFx gtCFGoff = _get_fx_rate envFx gtCFG := by
  cases envFx <;> rfl

/-- C10: every band, confirm-zone or risk-level alert that fires also marks
its key notified even when notify_once_per_band is false: with the guard
disabled (gtCFGoff) a triggered alert is emitted from any state (so it
re-fires every cycle) and its key is recorded notified, and re-enabling the
guard (gtCFG) on the resulting state suppresses that alert. -/
theorem c10_marked_even_when_guard_disabled (envFx : Option ℚ) (p : ℚ) (a : Option ℚ)
    (ext : Option LottoData) (deliverOk : Bool) (st : AlertState) :
    (∀ b ∈ gtCFG.levels.buy_bands, bandCond p b = true →
      bandMsg (_get_fx_rate envFx gtCFG) gtCFG.plan_gold_max_pct p b ∈
        (check_and_alert envFx gtCFGoff p a ext deliverOk st).msgs ∧
      (check_and_alert envFx gtCFGoff p a ext deliverOk st).st.notified (bandKey b) = true ∧
      bandMsg (_get_fx_rate envFx gtCFG) gtCFG.plan_gold_max_pct p b ∉
        (check_and_alert envFx gtCFG p a ext deliverOk
          (check_and_alert envFx gtCFGoff p a ext deliverOk st).st).msgs) ∧
    (∀ lo hi : Int, gtCFG.confirm_zone = some (lo, hi) →
      (decide ((lo : ℚ) ≤ p) && decide (p ≤ (hi : ℚ))) = true →
      confirmMsg gtCFG.plan_gold_max_pct p lo hi ∈
        (check_and_alert envFx gtCFGoff p a ext deliverOk st).msgs ∧
      (check_and_alert envFx gtCFGoff p a ext deliverOk st).st.notified "upper_confirm" = true ∧
      confirmMsg gtCFG.plan_gold_max_pct p lo hi ∉
        (check_and_alert envFx gtCFG p a ext deliverOk
          (check_and_alert envFx gtCFGoff p a ext deliverOk st).st).msgs) ∧
    (∀ s ∈ gtCFG.levels.stop_levels, stopCond p s = true →
      riskMsg p s ∈ (check_and_alert envFx gtCFGoff p a ext deliverOk st).msgs ∧
      (check_and_alert envFx gtCFGoff p a ext deliverOk st).st.notified (stopKey s) = true ∧
      riskMsg p s ∉ (check_and_alert envFx gtCFG p a ext deliverOk
        (check_and_alert envFx gtCFGoff p a ext deliverOk st).st).msgs) := by
  refine ⟨?_, ?_, ?_⟩
  · intro b hb hin
    have hb' : b ∈ gtCFGoff.levels.buy_bands := by
      rw [gtCFGoff_levels]
      exact hb
    have hm1 := evalSignals_band_fires envFx gtCFGoff p a ext st b hb' hin
      (fun h => absurd h (by decide))
      (fun y hy he => by
        have hy' : y ∈ gtCFG.levels.buy_bands := by
          rw [← gtCFGoff_levels]
          exact hy
        rcases gt_bands_cases b hb with rfl | rfl | rfl <;>
          rcases gt_bands_cases y hy' with rfl | rfl | rfl <;>
          first
            | rfl
            | exact absurd he (by decide))
    rw [gtCFGoff_fx envFx, gtCFGoff_pm] at hm1
    have hmk := evalSignals_band_marks envFx gtCFGoff p a ext st b hb' hin
    refine ⟨?_, ?_, ?_⟩
    · rw [check_and_alert_msgs_eq]
      exact hm1
    · rw [check_and_alert_st_eq]
      exact hmk
    · rw [check_and_alert_msgs_eq, check_and_alert_st_eq]
      exact gt_band_not_reemitted envFx p a ext _ b hb hmk
  · intro lo hi hcz hcond
    have hcz' : gtCFGoff.confirm_zone = some (lo, hi) := by
      rw [gtCFGoff_cz]
      exact hcz
    have hm1 := evalSignals_confirm_fires envFx gtCFGoff p a ext st lo hi hcz' hcond
      (fun h => absurd h (by decide))
      (fun b hbm => by
        have hbm' : b ∈ gtCFG.levels.buy_bands := by
          rw [← gtCFGoff_levels]
          exact hbm
        rcases gt_bands_cases b hbm' with rfl | rfl | rfl <;> decide)
    rw [gtCFGoff_pm] at hm1
    have hmk := evalSignals_confirm_marks envFx gtCFGoff p a ext st lo hi hcz' hcond
    refine ⟨?_, ?_, ?_⟩
    · rw [check_and_alert_msgs_eq]
      exact hm1
    · rw [check_and_alert_st_eq]
      exact hmk
    · rw [check_and_alert_msgs_eq, check_and_alert_st_eq]
      exact gt_confirm_not_reemitted envFx p a ext _ lo hi hmk
  · intro s hs hp
    have hs' : s ∈ gtCFGoff.levels.stop_levels := by
      rw [gtCFGoff_levels]
      exact hs
    have hm1 := evalSignals_risk_fires envFx gtCFGoff p a ext st s hs' hp
      (fun h => absurd h (by decide))
      (by rcases gt_stops_cases s hs with h | h <;> subst h <;> decide)
      (fun b hbm => by
        have hbm' : b ∈ gtCFG.levels.buy_bands := by
          rw [← gtCFGoff_levels]
          exact hbm
        rcases gt_stops_cases s hs with h | h <;> subst h <;>
          rcases gt_bands_cases b hbm' with rfl | rfl | rfl <;> decide)
      (fun y hy he => by
        have hy' : y ∈ gtCFG.levels.stop_levels := by
          rw [← gtCFGoff_levels]
          exact hy
        rcases gt_stops_cases s hs with h | h <;> subst h <;>
          rcases gt_stops_cases y hy' with h2 | h2 <;> subst h2 <;>
          first
            | rfl
            | exact absurd he (by decide))
    have hmk := evalSignals_risk_marks envFx gtCFGoff p a ext st s hs' hp
    refine ⟨?_, ?_, ?_⟩
    · rw [check_and_alert_msgs_eq]
      exact hm1
    · rw [check_and_alert_st_eq]
      exact hmk
    · rw [check_and_alert_msgs_eq, check_and_alert_st_eq]
      exact gt_risk_not_reemitted envFx p a ext _ s hs hmk

/-- Witness for C10 at a concrete input: with the guard disabled, price 3940
emits the Band A alert even from a state whose Band A key is already
notified, and the key stays notified. -/
theorem c10_marked_even_when_guard_disabled_witness :
    ({ name := "Band A", low := 3920, high := 3960, target_plan_pct := 3/10 } : Band) ∈
        gtCFG.levels.buy_bands ∧
    bandCond 3940 { name := "Band A", low := 3920, high := 3960, target_plan_pct := 3/10 } = true ∧
    bandMsg (_get_fx_rate none gtCFG) gtCFG.plan_gold_max_pct 3940
        { name := "Band A", low := 3920, high := 3960, target_plan_pct := 3/10 } ∈
      (check_and_alert none gtCFGoff 3940 none none true
        (mark_once emptyState "buy_Band A")).msgs ∧
    (check_and_alert none gtCFGoff 3940 none none true
        (mark_once emptyState "buy_Band A")).st.notified
      (bandKey { name := "Band A", low := 3920, high := 3960, target_plan_pct := 3/10 }) = true :=
  have hb : ({ name := "Band A", low := 3920, high := 3960, target_plan_pct := 3/10 } : Band) ∈
      gtCFG.levels.buy_bands := by decide
  have hin : bandCond 3940
      { name := "Band A", low := 3920, high := 3960, target_plan_pct := 3/10 } = true := by decide
  have hc := (c10_marked_even_when_guard_disabled none 3940 none none true
    (mark_once emptyState "buy_Band A")).1
    { name := "Band A", low := 3920, high := 3960, target_plan_pct := 3/10 } hb hin
  ⟨hb, hin, hc.1, hc.2.1⟩

end GoldTrend
